import Mathlib

/-!
# Verification of the FMU SDK co-simulation/model-exchange engine template

Shallow embedding of `src/fmu30/include/fmu3Template.c` and
`src/fmu30/include/fmu3Template.h` (the generic FMI 3.0 engine shared by all
example models), together with the per-model configuration data of the example
models (`Dahlquist.c`, `BouncingBall.c`, `Values.c`) needed as concrete inputs.

Modelling conventions:
* `fmi3Real` (C `double`) is embedded as `ℚ`; none of the verified properties
  depend on floating-point rounding.
* The variable store `void *variables[N_VARIABLES]` is a list of slots, each a
  list of tagged `Value`s; the typed accessors `R`/`I`/`B`/`S` of
  `fmu3Template.h` become tagged reads (a read at the wrong tag yields the
  type's zero value; no verified property depends on such reads).
* Host callbacks (logger, allocator) are dropped: the embedding models the
  instance data and the status results, not the diagnostic text.  The one
  place where emitted diagnostics matter to a claim (`fmi3SetDebugLogging`'s
  warning for an unrecognized category) returns the list of offending
  category names as an extra result component.
* C output pointers become extra result components; a possibly-NULL C pointer
  argument becomes an `Option`.
* `invalidState`'s `comp == NULL` early exit is not modelled: every embedded
  call is applied to an instance.
-/

namespace Fmu3

/-- fmi3Status (from fmi3Functions.h, as used by the template). -/
inductive Status where
  | ok
  | warning
  | discard
  | error
  | fatal
  | pending
deriving DecidableEq, Repr

/-- fmi3Type: the two driving modes passed to fmi3Instantiate. -/
inductive FmuType where
  | fmi3ModelExchange
  | fmi3CoSimulation
deriving DecidableEq, Repr

/-- The declared primitive kind of a variable slot: the characters
'r', 'i', 'b', 's' of `s_variableTypes`. -/
inductive VarKind where
  | r
  | i
  | b
  | s
deriving DecidableEq, Repr

/-- One stored element of a variable slot. -/
inductive Value where
  | real (x : ℚ)
  | int (x : ℤ)
  | bool (x : Bool)
  | str (x : String)
deriving DecidableEq, Repr

def Value.asReal : Value → ℚ
  | .real x => x
  | _ => 0

def Value.asInt : Value → ℤ
  | .int x => x
  | _ => 0

def Value.asBool : Value → Bool
  | .bool x => x
  | _ => false

def Value.asStr : Value → String
  | .str x => x
  | _ => ""

/-- ModelState of fmu3Template.h: one bit per lifecycle phase. -/
inductive ModelState where
  | modelStartAndEnd
  | modelInstantiated
  | modelInitializationMode
  | modelEventMode
  | modelContinuousTimeMode
  | modelStepComplete
  | modelStepInProgress
  | modelStepFailed
  | modelStepCanceled
  | modelTerminated
  | modelError
  | modelFatal
deriving DecidableEq, Repr

/-- The bit value of each state, exactly the enum constants of fmu3Template.h
(`modelStartAndEnd = 1<<0`, ..., `modelFatal = 1<<11`). -/
def ModelState.mask : ModelState → Nat
  | .modelStartAndEnd => 1 <<< 0
  | .modelInstantiated => 1 <<< 1
  | .modelInitializationMode => 1 <<< 2
  | .modelEventMode => 1 <<< 3
  | .modelContinuousTimeMode => 1 <<< 4
  | .modelStepComplete => 1 <<< 5
  | .modelStepInProgress => 1 <<< 6
  | .modelStepFailed => 1 <<< 7
  | .modelStepCanceled => 1 <<< 8
  | .modelTerminated => 1 <<< 9
  | .modelError => 1 <<< 10
  | .modelFatal => 1 <<< 11

/-- fmi3EventInfo. `nextEventTime` is a real (here: rational) time. -/
structure EventInfo where
  newDiscreteStatesNeeded : Bool
  terminateSimulation : Bool
  nominalsOfContinuousStatesChanged : Bool
  valuesOfContinuousStatesChanged : Bool
  nextEventTimeDefined : Bool
  nextEventTime : ℚ
deriving DecidableEq, Repr

/-- The four logging category flags, indices LOG_ALL=0, LOG_ERROR=1,
LOG_FMI_CALL=2, LOG_EVENT=3 of `logCategories[NUMBER_OF_CATEGORIES]`. -/
structure LogCategories where
  logAll : Bool
  logError : Bool
  logFmiCall : Bool
  logEvent : Bool
deriving DecidableEq, Repr

/-- `logCategories[j]`. Indices outside 0..3 do not occur (NUMBER_OF_CATEGORIES = 4). -/
def LogCategories.getCat (c : LogCategories) : Nat → Bool
  | 0 => c.logAll
  | 1 => c.logError
  | 2 => c.logFmiCall
  | 3 => c.logEvent
  | _ => false

/-- `logCategories[j] = v`. -/
def LogCategories.setCat (c : LogCategories) : Nat → Bool → LogCategories
  | 0, v => { c with logAll := v }
  | 1, v => { c with logError := v }
  | 2, v => { c with logFmiCall := v }
  | 3, v => { c with logEvent := v }
  | _ + 4, _ => c

/-- static fmi3String logCategoriesNames[] = {"logAll", "logError", "logFmiCall", "logEvent"}. -/
def logCategoriesNames : List String := ["logAll", "logError", "logFmiCall", "logEvent"]

/-- ModelInstance of fmu3Template.h.  The host-callback bundle and the
component environment are not data the engine computes with and are omitted. -/
structure ModelInstance where
  vars : List (List Value)
  isPositive : List Bool
  time : ℚ
  instanceName : String
  fmuType : FmuType
  guid : String
  loggingOn : Bool
  logCategories : LogCategories
  state : ModelState
  eventInfo : EventInfo
  isDirtyValues : Bool
  isNewEventIteration : Bool
deriving DecidableEq, Repr

/-- Slot access `comp->variables[vr]`. -/
def slotOf (comp : ModelInstance) (vr : Nat) : List Value :=
  comp.vars.getD vr []

/-- `R(comp, vr)[j]` — read element j of slot vr as a real. -/
def realAt (comp : ModelInstance) (vr j : Nat) : ℚ :=
  ((slotOf comp vr).getD j (.real 0)).asReal

/-- `I(comp, vr)[j]`. -/
def intAt (comp : ModelInstance) (vr j : Nat) : ℤ :=
  ((slotOf comp vr).getD j (.int 0)).asInt

/-- `B(comp, vr)[j]`. -/
def boolAt (comp : ModelInstance) (vr j : Nat) : Bool :=
  ((slotOf comp vr).getD j (.bool false)).asBool

/-- `S(comp, vr)[j]`. -/
def strAt (comp : ModelInstance) (vr j : Nat) : String :=
  ((slotOf comp vr).getD j (.str "")).asStr

/-- Slot vr viewed as a real array (the pointer `R(comp, vr)`). -/
def realSlotList (comp : ModelInstance) (vr : Nat) : List ℚ :=
  (slotOf comp vr).map Value.asReal

/-- Write one element: `variables[vr][j] = v`. Out-of-range writes (which in C
would be undefined behaviour) leave the store unchanged. -/
def writeAt (comp : ModelInstance) (vr j : Nat) (v : Value) : ModelInstance :=
  { comp with vars := comp.vars.set vr ((slotOf comp vr).set j v) }

/-- `R(comp, vr)[j] = x`. -/
def writeRealAt (comp : ModelInstance) (vr j : Nat) (x : ℚ) : ModelInstance :=
  writeAt comp vr j (.real x)

/-- The per-model configuration and hooks that the includer of fmu3Template.c
supplies: N_VARIABLES, s_variableTypes, s_variableSizes, NUMBER_OF_STATES,
STATES, NUMBER_OF_EVENT_INDICATORS, and the functions setStartValues,
calculateValues, getReal, getEventIndicator, eventUpdate.  `getReal` may
mutate the instance (the Dahlquist and Values models recompute the derivative
slot inside getReal), so it returns the new instance together with the
pointed-to real array. -/
structure Model where
  nVariables : Nat
  variableTypes : List VarKind
  variableSizes : List Nat
  numberOfStates : Nat
  vrStates : List Nat
  numberOfEventIndicators : Nat
  setStartValues : ModelInstance → ModelInstance
  calculateValues : ModelInstance → ModelInstance
  getReal : ModelInstance → Nat → ModelInstance × List ℚ
  getEventIndicator : ModelInstance → Nat → ℚ
  eventUpdate : ModelInstance → Bool → Bool → ModelInstance
  types_len : variableTypes.length = nVariables
  sizes_len : variableSizes.length = nVariables
  states_len : vrStates.length = numberOfStates

/-- The state `s` is a member of the legal-state bitmask `mask`. -/
def allowedIn (s : ModelState) (mask : Nat) : Prop :=
  s.mask &&& mask ≠ 0

instance (s : ModelState) (mask : Nat) : Decidable (allowedIn s mask) :=
  inferInstanceAs (Decidable (s.mask &&& mask ≠ 0))

/-- `invalidState`: if the current state is not in `statesExpected`, move the
instance to `modelError` and report the call as invalid. -/
def invalidState (comp : ModelInstance) (statesExpected : Nat) : Bool × ModelInstance :=
  if comp.state.mask &&& statesExpected == 0 then
    (true, { comp with state := .modelError })
  else
    (false, comp)

/-- `invalidNumber`: argument-count check; on mismatch the instance moves to
`modelError`. -/
def invalidNumber (comp : ModelInstance) (n nExpected : Nat) : Bool × ModelInstance :=
  if n ≠ nExpected then
    (true, { comp with state := .modelError })
  else
    (false, comp)

/-- `nullPointer`: required-pointer check; on NULL the instance moves to
`modelError`.  `isNull` is the nullness of the checked C pointer. -/
def nullPointerChk (comp : ModelInstance) (isNull : Bool) : Bool × ModelInstance :=
  if isNull then
    (true, { comp with state := .modelError })
  else
    (false, comp)

/-- `vrOutOfRange(comp, f, vr, type)`: value-reference range check followed by
the declared-kind check against the character `ty`. -/
def vrOutOfRange (m : Model) (comp : ModelInstance) (vr : Nat) (ty : VarKind) :
    Bool × ModelInstance :=
  if m.nVariables ≤ vr then
    (true, { comp with state := .modelError })
  else if m.variableTypes.getD vr .r ≠ ty then
    (true, { comp with state := .modelError })
  else
    (false, comp)

/-- A (vr, kind) pair that passes `vrOutOfRange`'s two checks. -/
def vrValid (m : Model) (vr : Nat) (ty : VarKind) : Prop :=
  vr < m.nVariables ∧ m.variableTypes.getD vr .r = ty

instance (m : Model) (vr : Nat) (ty : VarKind) : Decidable (vrValid m vr ty) :=
  inferInstanceAs (Decidable (_ ∧ _))

-- ---------------------------------------------------------------------------
-- Legal-state masks, from fmu3Template.h
-- ---------------------------------------------------------------------------

open ModelState in
def MASK_fmi3GetTypesPlatform : Nat :=
  modelStartAndEnd.mask ||| modelInstantiated.mask ||| modelInitializationMode.mask
  ||| modelEventMode.mask ||| modelContinuousTimeMode.mask
  ||| modelStepComplete.mask ||| modelStepInProgress.mask ||| modelStepFailed.mask
  ||| modelStepCanceled.mask ||| modelTerminated.mask ||| modelError.mask

open ModelState in
def MASK_fmi3SetDebugLogging : Nat :=
  modelInstantiated.mask ||| modelInitializationMode.mask
  ||| modelEventMode.mask ||| modelContinuousTimeMode.mask
  ||| modelStepComplete.mask ||| modelStepInProgress.mask ||| modelStepFailed.mask
  ||| modelStepCanceled.mask ||| modelTerminated.mask ||| modelError.mask

open ModelState in
def MASK_fmi3Instantiate : Nat := modelStartAndEnd.mask

open ModelState in
def MASK_fmi3FreeInstance : Nat :=
  modelInstantiated.mask ||| modelInitializationMode.mask
  ||| modelEventMode.mask ||| modelContinuousTimeMode.mask
  ||| modelStepComplete.mask ||| modelStepFailed.mask ||| modelStepCanceled.mask
  ||| modelTerminated.mask ||| modelError.mask

open ModelState in
def MASK_fmi3SetupExperiment : Nat := modelInstantiated.mask

open ModelState in
def MASK_fmi3EnterInitializationMode : Nat := modelInstantiated.mask

open ModelState in
def MASK_fmi3ExitInitializationMode : Nat := modelInitializationMode.mask

open ModelState in
def MASK_fmi3Terminate : Nat :=
  modelEventMode.mask ||| modelContinuousTimeMode.mask
  ||| modelStepComplete.mask ||| modelStepFailed.mask

def MASK_fmi3Reset : Nat := MASK_fmi3FreeInstance

open ModelState in
def MASK_fmi3GetReal : Nat :=
  modelInitializationMode.mask
  ||| modelEventMode.mask ||| modelContinuousTimeMode.mask
  ||| modelStepComplete.mask ||| modelStepFailed.mask ||| modelStepCanceled.mask
  ||| modelTerminated.mask ||| modelError.mask

def MASK_fmi3GetInteger : Nat := MASK_fmi3GetReal

def MASK_fmi3GetBoolean : Nat := MASK_fmi3GetReal

def MASK_fmi3GetString : Nat := MASK_fmi3GetReal

open ModelState in
def MASK_fmi3SetReal : Nat :=
  modelInstantiated.mask ||| modelInitializationMode.mask
  ||| modelEventMode.mask ||| modelContinuousTimeMode.mask
  ||| modelStepComplete.mask

open ModelState in
def MASK_fmi3SetInteger : Nat :=
  modelInstantiated.mask ||| modelInitializationMode.mask
  ||| modelEventMode.mask
  ||| modelStepComplete.mask

def MASK_fmi3SetBoolean : Nat := MASK_fmi3SetInteger

def MASK_fmi3SetString : Nat := MASK_fmi3SetInteger

def MASK_fmi3GetFMUstate : Nat := MASK_fmi3FreeInstance

def MASK_fmi3SetFMUstate : Nat := MASK_fmi3FreeInstance

def MASK_fmi3FreeFMUstate : Nat := MASK_fmi3FreeInstance

def MASK_fmi3SerializedFMUstateSize : Nat := MASK_fmi3FreeInstance

def MASK_fmi3SerializeFMUstate : Nat := MASK_fmi3FreeInstance

def MASK_fmi3DeSerializeFMUstate : Nat := MASK_fmi3FreeInstance

open ModelState in
def MASK_fmi3GetDirectionalDerivative : Nat :=
  modelInitializationMode.mask
  ||| modelEventMode.mask ||| modelContinuousTimeMode.mask
  ||| modelStepComplete.mask ||| modelStepFailed.mask ||| modelStepCanceled.mask
  ||| modelTerminated.mask ||| modelError.mask

open ModelState in
def MASK_fmi3EnterEventMode : Nat := modelEventMode.mask ||| modelContinuousTimeMode.mask

open ModelState in
def MASK_fmi3NewDiscreteStates : Nat := modelEventMode.mask

open ModelState in
def MASK_fmi3EnterContinuousTimeMode : Nat := modelEventMode.mask

open ModelState in
def MASK_fmi3CompletedIntegratorStep : Nat := modelContinuousTimeMode.mask

open ModelState in
def MASK_fmi3SetTime : Nat := modelEventMode.mask ||| modelContinuousTimeMode.mask

open ModelState in
def MASK_fmi3SetContinuousStates : Nat := modelContinuousTimeMode.mask

open ModelState in
def MASK_fmi3GetEventIndicators : Nat :=
  modelInitializationMode.mask
  ||| modelEventMode.mask ||| modelContinuousTimeMode.mask
  ||| modelTerminated.mask ||| modelError.mask

def MASK_fmi3GetContinuousStates : Nat := MASK_fmi3GetEventIndicators

open ModelState in
def MASK_fmi3GetDerivatives : Nat :=
  modelEventMode.mask ||| modelContinuousTimeMode.mask
  ||| modelTerminated.mask ||| modelError.mask

open ModelState in
def MASK_fmi3GetNominalsOfContinuousStates : Nat :=
  modelInstantiated.mask
  ||| modelEventMode.mask ||| modelContinuousTimeMode.mask
  ||| modelTerminated.mask ||| modelError.mask

open ModelState in
def MASK_fmi3SetRealInputDerivatives : Nat :=
  modelInstantiated.mask ||| modelInitializationMode.mask
  ||| modelStepComplete.mask

open ModelState in
def MASK_fmi3GetRealOutputDerivatives : Nat :=
  modelStepComplete.mask ||| modelStepFailed.mask ||| modelStepCanceled.mask
  ||| modelTerminated.mask ||| modelError.mask

open ModelState in
def MASK_fmi3DoStep : Nat := modelStepComplete.mask

open ModelState in
def MASK_fmi3CancelStep : Nat := modelStepInProgress.mask

open ModelState in
def MASK_fmi3GetStatus : Nat :=
  modelStepComplete.mask ||| modelStepInProgress.mask ||| modelStepFailed.mask
  ||| modelTerminated.mask

def MASK_fmi3GetRealStatus : Nat := MASK_fmi3GetStatus

def MASK_fmi3GetIntegerStatus : Nat := MASK_fmi3GetStatus

def MASK_fmi3GetBooleanStatus : Nat := MASK_fmi3GetStatus

def MASK_fmi3GetStringStatus : Nat := MASK_fmi3GetStatus

-- ---------------------------------------------------------------------------
-- FMI functions (fmu3Template.c)
-- ---------------------------------------------------------------------------

/-- fmi3SetupExperiment: ignores the tolerance/stop-time arguments and sets
the simulated time to startTime. -/
def fmi3SetupExperiment (comp : ModelInstance) (startTime : ℚ) : Status × ModelInstance :=
  let (bad, comp) := invalidState comp MASK_fmi3SetupExperiment
  if bad then (.error, comp)
  else (.ok, { comp with time := startTime })

/-- fmi3EnterInitializationMode. -/
def fmi3EnterInitializationMode (comp : ModelInstance) : Status × ModelInstance :=
  let (bad, comp) := invalidState comp MASK_fmi3EnterInitializationMode
  if bad then (.error, comp)
  else (.ok, { comp with state := .modelInitializationMode })

/-- fmi3ExitInitializationMode: flushes a pending lazy recomputation, then
moves to event mode (model exchange) or step-complete (co-simulation). -/
def fmi3ExitInitializationMode (m : Model) (comp : ModelInstance) : Status × ModelInstance :=
  let (bad, comp) := invalidState comp MASK_fmi3ExitInitializationMode
  if bad then (.error, comp)
  else
    let comp :=
      if comp.isDirtyValues then { m.calculateValues comp with isDirtyValues := false }
      else comp
    if comp.fmuType = .fmi3ModelExchange then
      (.ok, { comp with state := .modelEventMode, isNewEventIteration := true })
    else
      (.ok, { comp with state := .modelStepComplete })

/-- fmi3Terminate. -/
def fmi3Terminate (comp : ModelInstance) : Status × ModelInstance :=
  let (bad, comp) := invalidState comp MASK_fmi3Terminate
  if bad then (.error, comp)
  else (.ok, { comp with state := .modelTerminated })

/-- fmi3Reset: back to instantiated, re-applies the model's start values and
marks the values dirty. -/
def fmi3Reset (m : Model) (comp : ModelInstance) : Status × ModelInstance :=
  let (bad, comp) := invalidState comp MASK_fmi3Reset
  if bad then (.error, comp)
  else
    let comp := { comp with state := .modelInstantiated }
    let comp := m.setStartValues comp
    (.ok, { comp with isDirtyValues := true })

/-- The inner j-loop of fmi3SetDebugLogging: index of the first entry equal
to `name` (the C loop breaks on the first strcmp hit). -/
def findNameIdx (name : String) : List String → Option Nat
  | [] => none
  | s :: rest => if s == name then some 0 else (findNameIdx name rest).map (· + 1)

/-- Inner loop of fmi3SetDebugLogging over the requested category names:
for each name, the first matching entry of `logCategoriesNames` is set to
`loggingOn` (the C inner loop breaks on the first strcmp hit); an
unrecognized name is recorded as an emitted not-supported warning.
Arguments: current batch index `i`, remaining iteration count (fuel),
accumulated category flags, accumulated warned names. -/
def setDebugCatsLoop (catL : List String) (loggingOn : Bool) :
    Nat → Nat → LogCategories → List String → LogCategories × List String
  | _i, 0, cats, warns => (cats, warns)
  | i, n + 1, cats, warns =>
    let name := catL.getD i ""
    match findNameIdx name logCategoriesNames with
    | some j => setDebugCatsLoop catL loggingOn (i + 1) n (cats.setCat j loggingOn) warns
    | none => setDebugCatsLoop catL loggingOn (i + 1) n cats (warns ++ [name])

/-- fmi3SetDebugLogging: stores the loggingOn flag, resets all category flags
to false, then either sets every category to loggingOn (nCategories == 0) or
enables the recognized requested categories.  The third result component is
the list of category names for which the "not supported by model" warning was
emitted. -/
def fmi3SetDebugLogging (comp : ModelInstance) (loggingOn : Bool) (nCategories : Nat)
    (categories : List String) : Status × ModelInstance × List String :=
  let (bad, comp) := invalidState comp MASK_fmi3SetDebugLogging
  if bad then (.error, comp, [])
  else
    let comp := { comp with loggingOn := loggingOn }
    if nCategories == 0 then
      (.ok, { comp with
        logCategories := ⟨loggingOn, loggingOn, loggingOn, loggingOn⟩ }, [])
    else
      let (cats, warns) :=
        setDebugCatsLoop categories loggingOn 0 nCategories ⟨false, false, false, false⟩ []
      (.ok, { comp with logCategories := cats }, warns)

/-- unsupportedFunction: state check, then "Function not implemented" error
with no further state change. -/
def unsupportedFunction (comp : ModelInstance) (statesExpected : Nat) : Status × ModelInstance :=
  let (bad, comp) := invalidState comp statesExpected
  if bad then (.error, comp)
  else (.error, comp)

def fmi3GetFMUstate (comp : ModelInstance) : Status × ModelInstance :=
  unsupportedFunction comp MASK_fmi3GetFMUstate

def fmi3SetFMUstate (comp : ModelInstance) : Status × ModelInstance :=
  unsupportedFunction comp MASK_fmi3SetFMUstate

def fmi3FreeFMUstate (comp : ModelInstance) : Status × ModelInstance :=
  unsupportedFunction comp MASK_fmi3FreeFMUstate

def fmi3SerializedFMUstateSize (comp : ModelInstance) : Status × ModelInstance :=
  unsupportedFunction comp MASK_fmi3SerializedFMUstateSize

def fmi3SerializeFMUstate (comp : ModelInstance) : Status × ModelInstance :=
  unsupportedFunction comp MASK_fmi3SerializeFMUstate

def fmi3DeSerializeFMUstate (comp : ModelInstance) : Status × ModelInstance :=
  unsupportedFunction comp MASK_fmi3DeSerializeFMUstate

def fmi3GetDirectionalDerivative (comp : ModelInstance) : Status × ModelInstance :=
  unsupportedFunction comp MASK_fmi3GetDirectionalDerivative

/-- fmi3SetRealInputDerivatives: rejected — the model cannot interpolate
inputs. -/
def fmi3SetRealInputDerivatives (comp : ModelInstance) : Status × ModelInstance :=
  let (bad, comp) := invalidState comp MASK_fmi3SetRealInputDerivatives
  if bad then (.error, comp)
  else (.error, comp)

/-- fmi3GetRealOutputDerivatives: rejected, but zero-fills the output
buffer. -/
def fmi3GetRealOutputDerivatives (comp : ModelInstance) (nvr : Nat) :
    Status × ModelInstance × List ℚ :=
  let (bad, comp) := invalidState comp MASK_fmi3GetRealOutputDerivatives
  if bad then (.error, comp, [])
  else (.error, comp, List.replicate nvr 0)

/-- fmi3CancelStep: the model is never in modelStepInProgress, so the state
check always fails; even if it passed, the call is rejected. -/
def fmi3CancelStep (comp : ModelInstance) : Status × ModelInstance :=
  let (bad, comp) := invalidState comp MASK_fmi3CancelStep
  if bad then (.error, comp)
  else (.error, comp)

/-- fmi3StatusKind. -/
inductive StatusKind where
  | doStepStatus
  | pendingStatus
  | lastSuccessfulTime
  | terminated
deriving DecidableEq, Repr

/-- static getStatus helper: every kind is rejected with fmi3Discard after the
state check. -/
def getStatus (comp : ModelInstance) : Status × ModelInstance :=
  let (bad, comp) := invalidState comp MASK_fmi3GetStatus
  if bad then (.error, comp)
  else (.discard, comp)

def fmi3GetStatus (comp : ModelInstance) (_s : StatusKind) : Status × ModelInstance :=
  getStatus comp

/-- fmi3GetRealStatus: fmi3LastSuccessfulTime reports the current simulated
time; the third component is the value written through the output pointer. -/
def fmi3GetRealStatus (comp : ModelInstance) (s : StatusKind) :
    Status × ModelInstance × Option ℚ :=
  if s = .lastSuccessfulTime then
    let (bad, comp) := invalidState comp MASK_fmi3GetRealStatus
    if bad then (.error, comp, none)
    else (.ok, comp, some comp.time)
  else
    let (st, comp) := getStatus comp
    (st, comp, none)

def fmi3GetIntegerStatus (comp : ModelInstance) (_s : StatusKind) : Status × ModelInstance :=
  getStatus comp

/-- fmi3GetBooleanStatus: fmi3Terminated reports the model's termination
request. -/
def fmi3GetBooleanStatus (comp : ModelInstance) (s : StatusKind) :
    Status × ModelInstance × Option Bool :=
  if s = .terminated then
    let (bad, comp) := invalidState comp MASK_fmi3GetBooleanStatus
    if bad then (.error, comp, none)
    else (.ok, comp, some comp.eventInfo.terminateSimulation)
  else
    let (st, comp) := getStatus comp
    (st, comp, none)

def fmi3GetStringStatus (comp : ModelInstance) (_s : StatusKind) : Status × ModelInstance :=
  getStatus comp

-- ---------------------------------------------------------------------------
-- Typed getters and setters
-- ---------------------------------------------------------------------------

/-- Inner loop of fmi3GetReal for one batch entry: `value[k++] =
getReal(comp, vr[i])[j]` for j below the entry's size.  The model's getReal
hook is invoked once per element (it may mutate the instance).  Arguments:
current element index j, remaining element count, instance, accumulated
output. -/
def getRealInner (m : Model) (vr : Nat) :
    Nat → Nat → ModelInstance → List ℚ → ModelInstance × List ℚ
  | _j, 0, comp, acc => (comp, acc)
  | j, n + 1, comp, acc =>
    let (comp, arr) := m.getReal comp vr
    getRealInner m vr (j + 1) n comp (acc ++ [arr.getD j 0])

/-- Outer loop of fmi3GetReal over the batch: per entry, the vr is validated
against kind 'r' and, on failure, the call aborts with fmi3Error; note that
the element count of entry i is `s_variableSizes[i]` — indexed by the batch
position, exactly as in the C source.  Arguments: batch index i, remaining
entry count, instance, accumulated output. -/
def getRealLoop (m : Model) (vrL : List Nat) :
    Nat → Nat → ModelInstance → List ℚ → Status × ModelInstance × List ℚ
  | _i, 0, comp, acc => (.ok, comp, acc)
  | i, n + 1, comp, acc =>
    let vr := vrL.getD i 0
    let (bad, comp) := vrOutOfRange m comp vr .r
    if bad then (.error, comp, acc)
    else
      let (comp, acc) := getRealInner m vr 0 (m.variableSizes.getD i 0) comp acc
      getRealLoop m vrL (i + 1) n comp acc

/-- fmi3GetReal.  `vr?` is the (possibly NULL) vr array, `valueNull` the
nullness of the output buffer; the written output values are returned as the
third component. -/
def fmi3GetReal (m : Model) (comp : ModelInstance) (vr? : Option (List Nat)) (nvr : Nat)
    (valueNull : Bool) : Status × ModelInstance × List ℚ :=
  let (bad, comp) := invalidState comp MASK_fmi3GetReal
  if bad then (.error, comp, [])
  else
    let (bad, comp) := nullPointerChk comp (decide (0 < nvr) && vr?.isNone)
    if bad then (.error, comp, [])
    else
      let (bad, comp) := nullPointerChk comp (decide (0 < nvr) && valueNull)
      if bad then (.error, comp, [])
      else
        let comp :=
          if 0 < nvr ∧ comp.isDirtyValues then
            { m.calculateValues comp with isDirtyValues := false }
          else comp
        getRealLoop m (vr?.getD []) 0 nvr comp []

/-- Outer loop of fmi3GetInteger (`value[k++] = I(comp, vr[i])[j]`; direct
slot reads, no model hook). -/
def getIntLoop (m : Model) (vrL : List Nat) :
    Nat → Nat → ModelInstance → List ℤ → Status × ModelInstance × List ℤ
  | _i, 0, comp, acc => (.ok, comp, acc)
  | i, n + 1, comp, acc =>
    let vr := vrL.getD i 0
    let (bad, comp) := vrOutOfRange m comp vr .i
    if bad then (.error, comp, acc)
    else
      getIntLoop m vrL (i + 1) n comp
        (acc ++ (List.range (m.variableSizes.getD i 0)).map fun j => intAt comp vr j)

/-- fmi3GetInteger. -/
def fmi3GetInteger (m : Model) (comp : ModelInstance) (vr? : Option (List Nat)) (nvr : Nat)
    (valueNull : Bool) : Status × ModelInstance × List ℤ :=
  let (bad, comp) := invalidState comp MASK_fmi3GetInteger
  if bad then (.error, comp, [])
  else
    let (bad, comp) := nullPointerChk comp (decide (0 < nvr) && vr?.isNone)
    if bad then (.error, comp, [])
    else
      let (bad, comp) := nullPointerChk comp (decide (0 < nvr) && valueNull)
      if bad then (.error, comp, [])
      else
        let comp :=
          if 0 < nvr ∧ comp.isDirtyValues then
            { m.calculateValues comp with isDirtyValues := false }
          else comp
        getIntLoop m (vr?.getD []) 0 nvr comp []

/-- Outer loop of fmi3GetBoolean. -/
def getBoolLoop (m : Model) (vrL : List Nat) :
    Nat → Nat → ModelInstance → List Bool → Status × ModelInstance × List Bool
  | _i, 0, comp, acc => (.ok, comp, acc)
  | i, n + 1, comp, acc =>
    let vr := vrL.getD i 0
    let (bad, comp) := vrOutOfRange m comp vr .b
    if bad then (.error, comp, acc)
    else
      getBoolLoop m vrL (i + 1) n comp
        (acc ++ (List.range (m.variableSizes.getD i 0)).map fun j => boolAt comp vr j)

/-- fmi3GetBoolean. -/
def fmi3GetBoolean (m : Model) (comp : ModelInstance) (vr? : Option (List Nat)) (nvr : Nat)
    (valueNull : Bool) : Status × ModelInstance × List Bool :=
  let (bad, comp) := invalidState comp MASK_fmi3GetBoolean
  if bad then (.error, comp, [])
  else
    let (bad, comp) := nullPointerChk comp (decide (0 < nvr) && vr?.isNone)
    if bad then (.error, comp, [])
    else
      let (bad, comp) := nullPointerChk comp (decide (0 < nvr) && valueNull)
      if bad then (.error, comp, [])
      else
        let comp :=
          if 0 < nvr ∧ comp.isDirtyValues then
            { m.calculateValues comp with isDirtyValues := false }
          else comp
        getBoolLoop m (vr?.getD []) 0 nvr comp []

/-- Outer loop of fmi3GetString.  NOTE: the C source validates the vr against
kind 'b', not 's' (fmu3Template.c line 480) — this is embedded as found. -/
def getStrLoop (m : Model) (vrL : List Nat) :
    Nat → Nat → ModelInstance → List String → Status × ModelInstance × List String
  | _i, 0, comp, acc => (.ok, comp, acc)
  | i, n + 1, comp, acc =>
    let vr := vrL.getD i 0
    let (bad, comp) := vrOutOfRange m comp vr .b
    if bad then (.error, comp, acc)
    else
      getStrLoop m vrL (i + 1) n comp
        (acc ++ (List.range (m.variableSizes.getD i 0)).map fun j => strAt comp vr j)

/-- fmi3GetString. -/
def fmi3GetString (m : Model) (comp : ModelInstance) (vr? : Option (List Nat)) (nvr : Nat)
    (valueNull : Bool) : Status × ModelInstance × List String :=
  let (bad, comp) := invalidState comp MASK_fmi3GetString
  if bad then (.error, comp, [])
  else
    let (bad, comp) := nullPointerChk comp (decide (0 < nvr) && vr?.isNone)
    if bad then (.error, comp, [])
    else
      let (bad, comp) := nullPointerChk comp (decide (0 < nvr) && valueNull)
      if bad then (.error, comp, [])
      else
        let comp :=
          if 0 < nvr ∧ comp.isDirtyValues then
            { m.calculateValues comp with isDirtyValues := false }
          else comp
        getStrLoop m (vr?.getD []) 0 nvr comp []

/-- Inner loop of fmi3SetReal for one batch entry:
`R(comp, vr[i])[j] = value[k++]`.  Arguments: element index j, flat input
cursor k, remaining element count, instance. -/
def setRealInner (valueL : List ℚ) (vr : Nat) :
    Nat → Nat → Nat → ModelInstance → ModelInstance
  | _j, _k, 0, comp => comp
  | j, k, n + 1, comp =>
    setRealInner valueL vr (j + 1) (k + 1) n (writeRealAt comp vr j (valueL.getD k 0))

/-- Outer loop of fmi3SetReal: per entry a 'r' kind/range check (aborting
with fmi3Error on the first failure, already-written entries staying
applied), then the entry's elements are written.  As in the C source the
element count of entry i is `s_variableSizes[i]` (batch position).
Arguments: batch index i, flat input cursor k, remaining entry count,
instance. -/
def setRealGo (m : Model) (vrL : List Nat) (valueL : List ℚ) :
    Nat → Nat → Nat → ModelInstance → Status × ModelInstance
  | _i, _k, 0, comp => (.ok, comp)
  | i, k, n + 1, comp =>
    let vr := vrL.getD i 0
    let (bad, comp) := vrOutOfRange m comp vr .r
    if bad then (.error, comp)
    else
      let sz := m.variableSizes.getD i 0
      setRealGo m vrL valueL (i + 1) (k + sz) n (setRealInner valueL vr 0 k sz comp)

/-- fmi3SetReal: state and null checks, the batched write loop, and — only
when the whole loop succeeded with a non-empty batch — the dirty mark. -/
def fmi3SetReal (m : Model) (comp : ModelInstance) (vr? : Option (List Nat)) (nvr : Nat)
    (value? : Option (List ℚ)) : Status × ModelInstance :=
  let (bad, comp) := invalidState comp MASK_fmi3SetReal
  if bad then (.error, comp)
  else
    let (bad, comp) := nullPointerChk comp (decide (0 < nvr) && vr?.isNone)
    if bad then (.error, comp)
    else
      let (bad, comp) := nullPointerChk comp (decide (0 < nvr) && value?.isNone)
      if bad then (.error, comp)
      else
        match setRealGo m (vr?.getD []) (value?.getD []) 0 0 nvr comp with
        | (.ok, comp) => (.ok, if 0 < nvr then { comp with isDirtyValues := true } else comp)
        | r => r

/-- Inner loop of fmi3SetInteger (`I(comp, vr[i])[j] = value[k++]`). -/
def setIntInner (valueL : List ℤ) (vr : Nat) :
    Nat → Nat → Nat → ModelInstance → ModelInstance
  | _j, _k, 0, comp => comp
  | j, k, n + 1, comp =>
    setIntInner valueL vr (j + 1) (k + 1) n (writeAt comp vr j (.int (valueL.getD k 0)))

/-- Outer loop of fmi3SetInteger. -/
def setIntGo (m : Model) (vrL : List Nat) (valueL : List ℤ) :
    Nat → Nat → Nat → ModelInstance → Status × ModelInstance
  | _i, _k, 0, comp => (.ok, comp)
  | i, k, n + 1, comp =>
    let vr := vrL.getD i 0
    let (bad, comp) := vrOutOfRange m comp vr .i
    if bad then (.error, comp)
    else
      let sz := m.variableSizes.getD i 0
      setIntGo m vrL valueL (i + 1) (k + sz) n (setIntInner valueL vr 0 k sz comp)

/-- fmi3SetInteger. -/
def fmi3SetInteger (m : Model) (comp : ModelInstance) (vr? : Option (List Nat)) (nvr : Nat)
    (value? : Option (List ℤ)) : Status × ModelInstance :=
  let (bad, comp) := invalidState comp MASK_fmi3SetInteger
  if bad then (.error, comp)
  else
    let (bad, comp) := nullPointerChk comp (decide (0 < nvr) && vr?.isNone)
    if bad then (.error, comp)
    else
      let (bad, comp) := nullPointerChk comp (decide (0 < nvr) && value?.isNone)
      if bad then (.error, comp)
      else
        match setIntGo m (vr?.getD []) (value?.getD []) 0 0 nvr comp with
        | (.ok, comp) => (.ok, if 0 < nvr then { comp with isDirtyValues := true } else comp)
        | r => r

/-- Inner loop of fmi3SetBoolean (`B(comp, vr[i])[j] = value[k++]`). -/
def setBoolInner (valueL : List Bool) (vr : Nat) :
    Nat → Nat → Nat → ModelInstance → ModelInstance
  | _j, _k, 0, comp => comp
  | j, k, n + 1, comp =>
    setBoolInner valueL vr (j + 1) (k + 1) n (writeAt comp vr j (.bool (valueL.getD k 0)))

/-- Outer loop of fmi3SetBoolean.  NOTE: the C source validates the vr
against kind 'i', not 'b' (fmu3Template.c line 568) — embedded as found. -/
def setBoolGo (m : Model) (vrL : List Nat) (valueL : List Bool) :
    Nat → Nat → Nat → ModelInstance → Status × ModelInstance
  | _i, _k, 0, comp => (.ok, comp)
  | i, k, n + 1, comp =>
    let vr := vrL.getD i 0
    let (bad, comp) := vrOutOfRange m comp vr .i
    if bad then (.error, comp)
    else
      let sz := m.variableSizes.getD i 0
      setBoolGo m vrL valueL (i + 1) (k + sz) n (setBoolInner valueL vr 0 k sz comp)

/-- fmi3SetBoolean. -/
def fmi3SetBoolean (m : Model) (comp : ModelInstance) (vr? : Option (List Nat)) (nvr : Nat)
    (value? : Option (List Bool)) : Status × ModelInstance :=
  let (bad, comp) := invalidState comp MASK_fmi3SetBoolean
  if bad then (.error, comp)
  else
    let (bad, comp) := nullPointerChk comp (decide (0 < nvr) && vr?.isNone)
    if bad then (.error, comp)
    else
      let (bad, comp) := nullPointerChk comp (decide (0 < nvr) && value?.isNone)
      if bad then (.error, comp)
      else
        match setBoolGo m (vr?.getD []) (value?.getD []) 0 0 nvr comp with
        | (.ok, comp) => (.ok, if 0 < nvr then { comp with isDirtyValues := true } else comp)
        | r => r

/-- Outer loop of fmi3SetString: the element-writing body of the C loop is
entirely commented out, so per entry only the 's' kind/range check runs and
nothing is stored. -/
def setStrGo (m : Model) (vrL : List Nat) :
    Nat → Nat → ModelInstance → Status × ModelInstance
  | _i, 0, comp => (.ok, comp)
  | i, n + 1, comp =>
    let (bad, comp) := vrOutOfRange m comp (vrL.getD i 0) .s
    if bad then (.error, comp)
    else setStrGo m vrL (i + 1) n comp

/-- fmi3SetString: validates, stores nothing (the write is commented out in
the source), but still marks the instance dirty on a non-empty batch. -/
def fmi3SetString (m : Model) (comp : ModelInstance) (vr? : Option (List Nat)) (nvr : Nat)
    (value? : Option (List String)) : Status × ModelInstance :=
  let (bad, comp) := invalidState comp MASK_fmi3SetString
  if bad then (.error, comp)
  else
    let (bad, comp) := nullPointerChk comp (decide (0 < nvr) && vr?.isNone)
    if bad then (.error, comp)
    else
      let (bad, comp) := nullPointerChk comp (decide (0 < nvr) && value?.isNone)
      if bad then (.error, comp)
      else
        match setStrGo m (vr?.getD []) 0 nvr comp with
        | (.ok, comp) => (.ok, if 0 < nvr then { comp with isDirtyValues := true } else comp)
        | r => r

-- ---------------------------------------------------------------------------
-- Co-simulation stepping (fmi3DoStep) and model-exchange functions
-- ---------------------------------------------------------------------------

/-- DT_EVENT_DETECT = 1e-10: tolerance of the time-event test. -/
def dtEventDetect : ℚ := mkRat 1 (10 ^ 10)

/-- The forward-Euler block of one fmi3DoStep sub-interval:
`R(comp, vr)[0] += h * getReal(comp, vr + 1)[0]` for each continuous-state vr
in order.  The derivative is obtained through the model's getReal hook at
vr + 1 (which may itself mutate the instance) before the state slot is
updated. -/
def eulerStates (m : Model) (h : ℚ) (comp : ModelInstance) : ModelInstance :=
  m.vrStates.foldl
    (fun c vr =>
      let r := m.getReal c (vr + 1)
      writeRealAt r.1 vr 0 (realAt r.1 vr 0 + h * r.2.getD 0 0))
    comp

/-- The state-event scan of one sub-interval: recompute each event indicator
and flag a state event when the product of the current and previous value is
negative; the second component is the updated "previous" vector. -/
def scanIndicators (m : Model) (comp : ModelInstance) (prev : List ℚ) : Bool × List ℚ :=
  let curr := (List.range m.numberOfEventIndicators).map fun i => m.getEventIndicator comp i
  ((curr.zip prev).any fun p => decide (p.1 * p.2 < 0), curr)

/-- One sub-interval of fmi3DoStep: advance time by h, take the Euler step,
scan for state events, test for a time event
(`time - nextEventTime > -DT_EVENT_DETECT` with nextEventTimeDefined), invoke
the model's eventUpdate when either fired, and abort with fmi3Discard and
state modelStepFailed when the model requested termination.  `Sum.inl` is the
early return, `Sum.inr` carries the instance and previous-indicator vector
into the next sub-interval. -/
def doStepSub (m : Model) (h : ℚ) (comp : ModelInstance) (prev : List ℚ) :
    (Status × ModelInstance) ⊕ (ModelInstance × List ℚ) :=
  let comp := { comp with time := comp.time + h }
  let comp := eulerStates m h comp
  let (stateEvent, prev) := scanIndicators m comp prev
  let timeEvent := comp.eventInfo.nextEventTimeDefined
      && decide (comp.time - comp.eventInfo.nextEventTime > -dtEventDetect)
  let comp := if stateEvent || timeEvent then m.eventUpdate comp timeEvent true else comp
  if comp.eventInfo.terminateSimulation then
    Sum.inl (.discard, { comp with state := .modelStepFailed })
  else
    Sum.inr (comp, prev)

/-- The sub-interval loop of fmi3DoStep (`for (k = 0; k < n; k++)`). -/
def doStepLoop (m : Model) (h : ℚ) : Nat → ModelInstance → List ℚ → Status × ModelInstance
  | 0, comp, _prev => (.ok, comp)
  | n + 1, comp, prev =>
    match doStepSub m h comp prev with
    | .inl r => r
    | .inr (comp, prev) => doStepLoop m h n comp prev

/-- fmi3DoStep: reject a non-positive communication step size (moving the
instance to modelError), sample the event indicators as "previous", set the
time to the communication point, and run n = 10 forward-Euler sub-intervals
of width h = communicationStepSize / 10. -/
def fmi3DoStep (m : Model) (comp : ModelInstance)
    (currentCommunicationPoint communicationStepSize : ℚ) : Status × ModelInstance :=
  let h := communicationStepSize / 10
  let (bad, comp) := invalidState comp MASK_fmi3DoStep
  if bad then (.error, comp)
  else if communicationStepSize ≤ 0 then
    (.error, { comp with state := .modelError })
  else
    let prev := (List.range m.numberOfEventIndicators).map fun i => m.getEventIndicator comp i
    let comp := { comp with time := currentCommunicationPoint }
    doStepLoop m h 10 comp prev

/-- fmi3EnterEventMode. -/
def fmi3EnterEventMode (comp : ModelInstance) : Status × ModelInstance :=
  let (bad, comp) := invalidState comp MASK_fmi3EnterEventMode
  if bad then (.error, comp)
  else (.ok, { comp with state := .modelEventMode, isNewEventIteration := true })

/-- fmi3NewDiscreteStates: clears the four event flags, detects a pending
time event (`nextEventTimeDefined && nextEventTime <= time`), runs the
model's eventUpdate with the isNewEventIteration latch, clears the latch, and
copies the internal event info out (third component). -/
def fmi3NewDiscreteStates (m : Model) (comp : ModelInstance) :
    Status × ModelInstance × Option EventInfo :=
  let (bad, comp) := invalidState comp MASK_fmi3NewDiscreteStates
  if bad then (.error, comp, none)
  else
    let comp := { comp with eventInfo := { comp.eventInfo with
      newDiscreteStatesNeeded := false
      terminateSimulation := false
      nominalsOfContinuousStatesChanged := false
      valuesOfContinuousStatesChanged := false } }
    let timeEvent := comp.eventInfo.nextEventTimeDefined
        && decide (comp.eventInfo.nextEventTime ≤ comp.time)
    let comp := m.eventUpdate comp timeEvent comp.isNewEventIteration
    let comp := { comp with isNewEventIteration := false }
    (.ok, comp, some comp.eventInfo)

/-- fmi3EnterContinuousTimeMode. -/
def fmi3EnterContinuousTimeMode (comp : ModelInstance) : Status × ModelInstance :=
  let (bad, comp) := invalidState comp MASK_fmi3EnterContinuousTimeMode
  if bad then (.error, comp)
  else (.ok, { comp with state := .modelContinuousTimeMode })

/-- fmi3CompletedIntegratorStep: always reports (no event mode, no
termination) through its two output pointers (third component). -/
def fmi3CompletedIntegratorStep (comp : ModelInstance) (enterNull termNull : Bool) :
    Status × ModelInstance × Option (Bool × Bool) :=
  let (bad, comp) := invalidState comp MASK_fmi3CompletedIntegratorStep
  if bad then (.error, comp, none)
  else
    let (bad, comp) := nullPointerChk comp enterNull
    if bad then (.error, comp, none)
    else
      let (bad, comp) := nullPointerChk comp termNull
      if bad then (.error, comp, none)
      else (.ok, comp, some (false, false))

/-- fmi3SetTime. -/
def fmi3SetTime (comp : ModelInstance) (time : ℚ) : Status × ModelInstance :=
  let (bad, comp) := invalidState comp MASK_fmi3SetTime
  if bad then (.error, comp)
  else (.ok, { comp with time := time })

/-- fmi3SetContinuousStates: state, count and null checks; the body that
would copy the states into the store is commented out in the source, so a
passing call performs no write at all. -/
def fmi3SetContinuousStates (m : Model) (comp : ModelInstance) (x? : Option (List ℚ))
    (nx : Nat) : Status × ModelInstance :=
  let (bad, comp) := invalidState comp MASK_fmi3SetContinuousStates
  if bad then (.error, comp)
  else
    let (bad, comp) := invalidNumber comp nx m.numberOfStates
    if bad then (.error, comp)
    else
      let (bad, comp) := nullPointerChk comp x?.isNone
      if bad then (.error, comp)
      else (.ok, comp)

/-- Loop of fmi3GetDerivatives: `derivatives[i] = getReal(comp, vrStates[i] + 1)[0]`,
threading the instance through the (possibly mutating) getReal hook. -/
def getDerivLoop (m : Model) :
    Nat → Nat → ModelInstance → List ℚ → ModelInstance × List ℚ
  | _i, 0, comp, acc => (comp, acc)
  | i, n + 1, comp, acc =>
    let vr := m.vrStates.getD i 0 + 1
    let (comp, arr) := m.getReal comp vr
    getDerivLoop m (i + 1) n comp (acc ++ [arr.getD 0 0])

/-- fmi3GetDerivatives. -/
def fmi3GetDerivatives (m : Model) (comp : ModelInstance) (derivNull : Bool) (nx : Nat) :
    Status × ModelInstance × List ℚ :=
  let (bad, comp) := invalidState comp MASK_fmi3GetDerivatives
  if bad then (.error, comp, [])
  else
    let (bad, comp) := invalidNumber comp nx m.numberOfStates
    if bad then (.error, comp, [])
    else
      let (bad, comp) := nullPointerChk comp derivNull
      if bad then (.error, comp, [])
      else
        let (comp, acc) := getDerivLoop m 0 nx comp []
        (.ok, comp, acc)

/-- fmi3GetEventIndicators: count check (no null check in the source), then
`eventIndicators[i] = getEventIndicator(comp, i)`. -/
def fmi3GetEventIndicators (m : Model) (comp : ModelInstance) (ni : Nat) :
    Status × ModelInstance × List ℚ :=
  let (bad, comp) := invalidState comp MASK_fmi3GetEventIndicators
  if bad then (.error, comp, [])
  else
    let (bad, comp) := invalidNumber comp ni m.numberOfEventIndicators
    if bad then (.error, comp, [])
    else
      (.ok, comp, (List.range ni).map fun i => m.getEventIndicator comp i)

/-- Loop of fmi3GetContinuousStates: `states[i] = getReal(comp, vrStates[i])[0]`. -/
def getContStatesLoop (m : Model) :
    Nat → Nat → ModelInstance → List ℚ → ModelInstance × List ℚ
  | _i, 0, comp, acc => (comp, acc)
  | i, n + 1, comp, acc =>
    let vr := m.vrStates.getD i 0
    let (comp, arr) := m.getReal comp vr
    getContStatesLoop m (i + 1) n comp (acc ++ [arr.getD 0 0])

/-- fmi3GetContinuousStates. -/
def fmi3GetContinuousStates (m : Model) (comp : ModelInstance) (statesNull : Bool) (nx : Nat) :
    Status × ModelInstance × List ℚ :=
  let (bad, comp) := invalidState comp MASK_fmi3GetContinuousStates
  if bad then (.error, comp, [])
  else
    let (bad, comp) := invalidNumber comp nx m.numberOfStates
    if bad then (.error, comp, [])
    else
      let (bad, comp) := nullPointerChk comp statesNull
      if bad then (.error, comp, [])
      else
        let (comp, acc) := getContStatesLoop m 0 nx comp []
        (.ok, comp, acc)

/-- fmi3GetNominalsOfContinuousStates: every nominal is 1. -/
def fmi3GetNominalsOfContinuousStates (m : Model) (comp : ModelInstance) (nomNull : Bool)
    (nx : Nat) : Status × ModelInstance × List ℚ :=
  let (bad, comp) := invalidState comp MASK_fmi3GetNominalsOfContinuousStates
  if bad then (.error, comp, [])
  else
    let (bad, comp) := invalidNumber comp nx m.numberOfStates
    if bad then (.error, comp, [])
    else
      let (bad, comp) := nullPointerChk comp nomNull
      if bad then (.error, comp, [])
      else (.ok, comp, List.replicate nx 1)

-- ---------------------------------------------------------------------------
-- Concrete model configurations (the includers of fmu3Template.c)
-- ---------------------------------------------------------------------------

/-- Dahlquist.c setStartValues: r(x_) = 1; r(k_) = 1. -/
def dqSetStartValues (comp : ModelInstance) : ModelInstance :=
  writeRealAt (writeRealAt comp 0 0 1) 2 0 1

/-- Dahlquist.c calculateValues: empty body. -/
def dqCalculateValues (comp : ModelInstance) : ModelInstance :=
  comp

/-- Dahlquist.c getReal: x_ and k_ are direct slot reads; der_x_ is
recomputed as -(x*x) into its slot before the slot is returned; other vrs
return NULL (embedded as the empty array). -/
def dqGetReal (comp : ModelInstance) (vr : Nat) : ModelInstance × List ℚ :=
  match vr with
  | 0 => (comp, realSlotList comp 0)
  | 1 =>
    let comp := writeRealAt comp 1 0 (-(realAt comp 0 0) * realAt comp 0 0)
    (comp, realSlotList comp 1)
  | 2 => (comp, realSlotList comp 2)
  | _ => (comp, [])

/-- The Dahlquist model configuration: N_VARIABLES = 3, s_variableTypes =
"rrr", s_variableSizes = {1,1,1}, one continuous state {x_}, no event
indicators, empty eventUpdate.  (The model defines no getEventIndicator; the
engine never calls it with NUMBER_OF_EVENT_INDICATORS = 0.) -/
def dqModel : Model where
  nVariables := 3
  variableTypes := [.r, .r, .r]
  variableSizes := [1, 1, 1]
  numberOfStates := 1
  vrStates := [0]
  numberOfEventIndicators := 0
  setStartValues := dqSetStartValues
  calculateValues := dqCalculateValues
  getReal := dqGetReal
  getEventIndicator := fun _ _ => 0
  eventUpdate := fun comp _ _ => comp
  types_len := rfl
  sizes_len := rfl
  states_len := rfl

/-- EPS_INDICATORS = 1e-14 (BouncingBall.c). -/
def epsIndicators : ℚ := mkRat 1 (10 ^ 14)

/-- BouncingBall.c setStartValues: r(h_) = 1; r(v_) = 0; r(g_) = 9.81;
r(e_) = 0.7. -/
def bbSetStartValues (comp : ModelInstance) : ModelInstance :=
  writeRealAt (writeRealAt (writeRealAt (writeRealAt comp 0 0 1) 2 0 0) 4 0 (mkRat 981 100))
    5 0 (mkRat 7 10)

/-- BouncingBall.c calculateValues: only in initialization mode, sets
r(der_v_) = -r(g_) and pos(0) = r(h_) > 0. -/
def bbCalculateValues (comp : ModelInstance) : ModelInstance :=
  if comp.state = .modelInitializationMode then
    let comp := writeRealAt comp 3 0 (-(realAt comp 4 0))
    { comp with isPositive := comp.isPositive.set 0 (decide (0 < realAt comp 0 0)) }
  else comp

/-- BouncingBall.c getReal: note that der_h_ (vr 1) is answered from the
velocity slot v_ (vr 2), not from slot 1. -/
def bbGetReal (comp : ModelInstance) (vr : Nat) : ModelInstance × List ℚ :=
  match vr with
  | 0 => (comp, realSlotList comp 0)
  | 1 => (comp, realSlotList comp 2)
  | 2 => (comp, realSlotList comp 2)
  | 3 => (comp, realSlotList comp 3)
  | 4 => (comp, realSlotList comp 4)
  | 5 => (comp, realSlotList comp 5)
  | _ => (comp, [])

/-- BouncingBall.c getEventIndicator: z0 = r(h_) ± EPS_INDICATORS depending
on the sign latch pos(0). -/
def bbGetEventIndicator (comp : ModelInstance) (z : Nat) : ℚ :=
  match z with
  | 0 =>
    realAt comp 0 0 + (if comp.isPositive.getD 0 false then epsIndicators else -epsIndicators)
  | _ => 0

/-- BouncingBall.c eventUpdate.  The C code keeps the previous impact
velocity in a process-wide global `prevV`; here the global's value on entry
is the first argument (it is cached from r(v_) on a new event iteration,
exactly as in the source). -/
def bbEventUpdate (prevV : ℚ) (comp : ModelInstance)
    (_isTimeEvent isNewEventIteration : Bool) : ModelInstance :=
  let prevV := if isNewEventIteration then realAt comp 2 0 else prevV
  let comp := { comp with isPositive := comp.isPositive.set 0 (decide (0 < realAt comp 0 0)) }
  let comp :=
    if !(comp.isPositive.getD 0 false) then
      let tempV := -(realAt comp 5 0) * prevV
      let comp :=
        if realAt comp 2 0 ≠ tempV then
          { writeRealAt comp 2 0 tempV with eventInfo :=
              { comp.eventInfo with valuesOfContinuousStatesChanged := true } }
        else comp
      if realAt comp 2 0 < mkRat 1 (10 ^ 3) then
        writeRealAt (writeRealAt comp 2 0 0) 3 0 0
      else comp
    else comp
  { comp with eventInfo := { comp.eventInfo with
      nominalsOfContinuousStatesChanged := false
      terminateSimulation := false
      nextEventTimeDefined := false } }

/-- The BouncingBall model configuration: N_VARIABLES = 6, s_variableTypes =
"rrrrrr", sizes all 1, states {h_, v_} = {0, 2}, one event indicator.
`prevV` is the entry value of the model's process-wide global. -/
def bouncingBallModel (prevV : ℚ) : Model where
  nVariables := 6
  variableTypes := [.r, .r, .r, .r, .r, .r]
  variableSizes := [1, 1, 1, 1, 1, 1]
  numberOfStates := 2
  vrStates := [0, 2]
  numberOfEventIndicators := 1
  setStartValues := bbSetStartValues
  calculateValues := bbCalculateValues
  getReal := bbGetReal
  getEventIndicator := bbGetEventIndicator
  eventUpdate := bbEventUpdate prevV
  types_len := rfl
  sizes_len := rfl
  states_len := rfl

/-- Values.c setStartValues: r(x_) = 1; i(int_in_) = 2; i(int_out_) = 0;
b(bool_in_) = true; b(bool_out_) = false.  The two `copy(...)` calls reach
fmi3SetString, whose store write is commented out; at their call sites
(state modelInstantiated) their only effect is marking the values dirty. -/
def valuesSetStartValues (comp : ModelInstance) : ModelInstance :=
  let comp := writeRealAt comp 0 0 1
  let comp := writeAt comp 2 0 (.int 2)
  let comp := writeAt comp 3 0 (.int 0)
  let comp := writeAt comp 4 0 (.bool true)
  let comp := writeAt comp 5 0 (.bool false)
  { comp with isDirtyValues := true }

/-- Values.c calculateValues: in initialization mode, schedules the first
time event at 1 + time. -/
def valuesCalculateValues (comp : ModelInstance) : ModelInstance :=
  if comp.state = .modelInitializationMode then
    { comp with eventInfo := { comp.eventInfo with
        nextEventTimeDefined := true
        nextEventTime := 1 + comp.time } }
  else comp

/-- Values.c getReal: x_ direct; der_x_ recomputed as -x into its slot;
anything else returns NULL (empty array). -/
def valuesGetReal (comp : ModelInstance) (vr : Nat) : ModelInstance × List ℚ :=
  match vr with
  | 0 => (comp, realSlotList comp 0)
  | 1 =>
    let comp := writeRealAt comp 1 0 (-(realAt comp 0 0))
    (comp, realSlotList comp 1)
  | _ => (comp, [])

/-- Values.c eventUpdate: on a time event, schedule the next event one time
unit later, increment int_out_, toggle bool_out_, advance the month text
(whose store write is a no-op, see fmi3SetString) or request termination
after the 12th firing. -/
def valuesEventUpdate (comp : ModelInstance) (isTimeEvent _isNewEventIteration : Bool) :
    ModelInstance :=
  if isTimeEvent then
    let comp := { comp with eventInfo := { comp.eventInfo with
        nextEventTimeDefined := true
        nextEventTime := 1 + comp.time } }
    let comp := writeAt comp 3 0 (.int (intAt comp 3 0 + 1))
    let comp := writeAt comp 5 0 (.bool (!boolAt comp 5 0))
    if intAt comp 3 0 < 12 then comp
    else { comp with eventInfo := { comp.eventInfo with terminateSimulation := true } }
  else comp

/-- The Values model configuration: N_VARIABLES = 8, s_variableTypes =
"rriibbss", sizes all 1, one continuous state {x_}, no event indicators. -/
def valuesModel : Model where
  nVariables := 8
  variableTypes := [.r, .r, .i, .i, .b, .b, .s, .s]
  variableSizes := [1, 1, 1, 1, 1, 1, 1, 1]
  numberOfStates := 1
  vrStates := [0]
  numberOfEventIndicators := 0
  setStartValues := valuesSetStartValues
  calculateValues := valuesCalculateValues
  getReal := valuesGetReal
  getEventIndicator := fun _ _ => 0
  eventUpdate := valuesEventUpdate
  types_len := rfl
  sizes_len := rfl
  states_len := rfl

/-- A minimal configuration used purely as a concrete witness input for the
generic engine theorems: two real scalars, vr 0 a continuous state with its
derivative at vr 1, direct slot reads, no event indicators, inert hooks. -/
def euler2Model : Model where
  nVariables := 2
  variableTypes := [.r, .r]
  variableSizes := [1, 1]
  numberOfStates := 1
  vrStates := [0]
  numberOfEventIndicators := 0
  setStartValues := fun comp => comp
  calculateValues := fun comp => comp
  getReal := fun comp vr => (comp, realSlotList comp vr)
  getEventIndicator := fun _ _ => 0
  eventUpdate := fun comp _ _ => comp
  types_len := rfl
  sizes_len := rfl
  states_len := rfl

/-- The store effect of applying the first p entries of an fmi3SetReal batch,
entry after entry, starting at batch index i and flat-input cursor k:
entry q writes its `s_variableSizes[q]` elements and advances the cursor.
Used to state that an aborted batch leaves exactly the earlier entries
applied. -/
def writeEntrySeq (m : Model) (vrL : List Nat) (valueL : List ℚ) :
    Nat → Nat → Nat → ModelInstance → ModelInstance
  | _i, _k, 0, comp => comp
  | i, k, p + 1, comp =>
    let sz := m.variableSizes.getD i 0
    writeEntrySeq m vrL valueL (i + 1) (k + sz) p
      (setRealInner valueL (vrL.getD i 0) 0 k sz comp)

/-- One sub-interval of the stepper as §4.4 of the specification describes
it: advance the time by the sub-step width and every continuous state,
simultaneously, by `subStepSize × derivative`, the derivative being the
value stored at VR + 1.  This is the specification-side description that the
sequential loop of fmi3DoStep is proved to refine. -/
def eulerSpecSub (m : Model) (h : ℚ) (c : ModelInstance) : ModelInstance :=
  { m.vrStates.foldl
      (fun c2 vr => writeRealAt c2 vr 0 (realAt c vr 0 + h * realAt c (vr + 1) 0)) c
    with time := c.time + h }

/-- Builds a concrete instance with the given store, sign latches and
lifecycle state; the remaining fields take fixed baseline values. -/
def mkInstance (vs : List (List Value)) (isPos : List Bool) (st : ModelState) :
    ModelInstance where
  vars := vs
  isPositive := isPos
  time := 0
  instanceName := "instance"
  fmuType := .fmi3CoSimulation
  guid := "GUID"
  loggingOn := true
  logCategories := ⟨true, true, true, true⟩
  state := st
  eventInfo := ⟨false, false, false, false, false, 0⟩
  isDirtyValues := false
  isNewEventIteration := false

/-- A Dahlquist instance at its start values (x = 1, der_x = 0, k = 1),
in co-simulation step-complete state. -/
def dqComp : ModelInstance :=
  mkInstance [[.real 1], [.real 0], [.real 1]] [] .modelStepComplete

/-- A BouncingBall instance at its start values (h = 1, v = 0, g = 9.81,
e = 0.7), in event mode with the sign latch positive. -/
def bbComp : ModelInstance :=
  mkInstance
    [[.real 1], [.real 0], [.real 0], [.real 0], [.real (mkRat 981 100)], [.real (mkRat 7 10)]]
    [true] .modelEventMode

/-- A Values instance at its start values, in step-complete state. -/
def valuesComp : ModelInstance :=
  mkInstance
    [[.real 1], [.real 0], [.int 2], [.int 0], [.bool true], [.bool false],
      [.str "QTronic"], [.str "jan"]]
    [] .modelStepComplete

/-- A two-real instance for the stepping witness: state x = 0 at vr 0 with
constant derivative 1 stored at vr 1, in step-complete state. -/
def euler2Comp : ModelInstance :=
  mkInstance [[.real 0], [.real 1]] [] .modelStepComplete

-- ---------------------------------------------------------------------------
-- General lemmas about the checks and the store
-- ---------------------------------------------------------------------------

theorem invalidState_of_not_allowed {comp : ModelInstance} {mask : Nat}
    (h : ¬ allowedIn comp.state mask) :
    invalidState comp mask = (true, { comp with state := .modelError }) := by
  have h0 : comp.state.mask &&& mask = 0 := by
    by_contra hc
    exact h hc
  simp [invalidState, h0]

theorem invalidState_of_allowed {comp : ModelInstance} {mask : Nat}
    (h : allowedIn comp.state mask) :
    invalidState comp mask = (false, comp) := by
  have h0 : (comp.state.mask &&& mask == 0) = false := by
    simpa [allowedIn] using h
  simp [invalidState, h0]

theorem vrOutOfRange_of_valid {m : Model} {comp : ModelInstance} {vr : Nat} {ty : VarKind}
    (h : vrValid m vr ty) :
    vrOutOfRange m comp vr ty = (false, comp) := by
  obtain ⟨h1, h2⟩ := h
  unfold vrOutOfRange
  rw [if_neg (Nat.not_le.mpr h1), if_neg (by simpa [List.getD] using h2)]

theorem vrOutOfRange_of_invalid {m : Model} {comp : ModelInstance} {vr : Nat} {ty : VarKind}
    (h : ¬ vrValid m vr ty) :
    vrOutOfRange m comp vr ty = (true, { comp with state := .modelError }) := by
  unfold vrOutOfRange
  by_cases h1 : vr < m.nVariables
  · have h2 : m.variableTypes.getD vr .r ≠ ty := fun hc => h ⟨h1, hc⟩
    rw [if_neg (Nat.not_le.mpr h1), if_pos h2]
  · rw [if_pos (Nat.le_of_not_lt h1)]

theorem slotOf_writeAt_self {comp : ModelInstance} {vr : Nat} (j : Nat) (v : Value)
    (h : vr < comp.vars.length) :
    slotOf (writeAt comp vr j v) vr = (slotOf comp vr).set j v := by
  simp [slotOf, writeAt, List.getD, List.getElem?_set_eq_of_lt _ h]

theorem slotOf_writeAt_ne {comp : ModelInstance} {vr : Nat} (j : Nat) (v : Value)
    (w : Nat) (h : w ≠ vr) :
    slotOf (writeAt comp vr j v) w = slotOf comp w := by
  simp [slotOf, writeAt, List.getD, List.getElem?_set_ne (Ne.symm h)]

theorem realAt_writeRealAt_self {comp : ModelInstance} {vr j : Nat} (x : ℚ)
    (h1 : vr < comp.vars.length) (h2 : j < (slotOf comp vr).length) :
    realAt (writeRealAt comp vr j x) vr j = x := by
  simp [realAt, writeRealAt, slotOf_writeAt_self _ _ h1, List.getD,
    List.getElem?_set_eq_of_lt _ h2, Value.asReal]

theorem realAt_writeRealAt_ne {comp : ModelInstance} {vr : Nat} (j : Nat) (x : ℚ)
    (w jw : Nat) (h : w ≠ vr) :
    realAt (writeRealAt comp vr j x) w jw = realAt comp w jw := by
  simp [realAt, writeRealAt, slotOf_writeAt_ne _ _ _ h]

theorem realSlotList_getD (c : ModelInstance) (vr j : Nat) :
    (realSlotList c vr).getD j 0 = realAt c vr j := by
  by_cases h : j < (slotOf c vr).length
  · have h' : j < (realSlotList c vr).length := by simpa [realSlotList] using h
    rw [List.getD_eq_getElem _ _ h']
    simp only [realAt]
    rw [List.getD_eq_getElem _ _ h]
    simp [realSlotList]
  · have hle : (slotOf c vr).length ≤ j := Nat.le_of_not_lt h
    have h' : (realSlotList c vr).length ≤ j := by simpa [realSlotList] using hle
    rw [List.getD_eq_default _ _ h']
    simp only [realAt]
    rw [List.getD_eq_default _ _ hle]
    rfl

theorem findNameIdx_eq_none {name : String} {l : List String} (h : name ∉ l) :
    findNameIdx name l = none := by
  induction l with
  | nil => rfl
  | cons s rest ih =>
    simp only [List.mem_cons, not_or] at h
    have hs : (s == name) = false := by
      rw [beq_eq_false_iff_ne]
      exact fun hc => h.1 hc.symm
    simp [findNameIdx, hs, ih h.2]

-- ---------------------------------------------------------------------------
-- Claim theorems
-- ---------------------------------------------------------------------------

/-- C10: in a legal state, with nx equal to the configured number of
continuous states and a non-null x array, fmi3SetContinuousStates returns
fmi3OK and the resulting instance is the input instance unchanged — every
variable slot, the simulated time and every other field included (the body
that would copy the states is commented out in the source). -/
theorem claim10_set_continuous_states_is_frame (m : Model) (comp : ModelInstance)
    (x? : Option (List ℚ)) (nx : Nat)
    (hstate : allowedIn comp.state MASK_fmi3SetContinuousStates)
    (hnx : nx = m.numberOfStates)
    (hx : x?.isSome = true) :
    fmi3SetContinuousStates m comp x? nx = (.ok, comp) := by
  have hnull : x?.isNone = false := by
    cases x? <;> simp_all
  simp [fmi3SetContinuousStates, invalidState_of_allowed hstate, invalidNumber, hnx,
    nullPointerChk, hnull]

/-- Witness for C10: a Dahlquist instance in continuous-time mode, nx = 1,
x = [9]; the call returns fmi3OK and the instance is unchanged. -/
theorem claim10_witness :
    fmi3SetContinuousStates dqModel
      (mkInstance [[.real 1], [.real 0], [.real 1]] [] .modelContinuousTimeMode) (some [9]) 1
      = (.ok, mkInstance [[.real 1], [.real 0], [.real 1]] [] .modelContinuousTimeMode) :=
  claim10_set_continuous_states_is_frame dqModel
    (mkInstance [[.real 1], [.real 0], [.real 1]] [] .modelContinuousTimeMode)
    (some [9]) 1 (by decide) rfl rfl

/-- C2 (amended): fmi3DoStep with communicationStepSize ≤ 0 returns
fmi3Error and leaves the instance unchanged except for its lifecycle state,
which becomes modelError; in particular the simulated time and every
variable slot are unchanged.  (The claim's "makes no state change" is
refuted by the lifecycle-state transition, see the counterexample.) -/
theorem claim2_amended_dostep_nonpositive (m : Model) (comp : ModelInstance) (t s : ℚ)
    (hs : s ≤ 0) :
    fmi3DoStep m comp t s = (.error, { comp with state := .modelError }) := by
  by_cases hb : allowedIn comp.state MASK_fmi3DoStep
  · simp [fmi3DoStep, invalidState_of_allowed hb, hs]
  · simp [fmi3DoStep, invalidState_of_not_allowed hb]

/-- Witness for C2 (amended): the Dahlquist instance in step-complete state,
stepped with size 0. -/
theorem claim2_witness :
    fmi3DoStep dqModel dqComp 0 0 = (.error, { dqComp with state := .modelError }) :=
  claim2_amended_dostep_nonpositive dqModel dqComp 0 0 (le_refl 0)

/-- Counterexample to C2 as stated: with step size 0 from the legal
step-complete state, the call returns an error and leaves the time
unchanged, but the instance's state does change — it becomes modelError. -/
theorem claim2_counterexample :
    (fmi3DoStep dqModel dqComp 0 0).1 = .error ∧
    (fmi3DoStep dqModel dqComp 0 0).2.time = dqComp.time ∧
    (fmi3DoStep dqModel dqComp 0 0).2.state ≠ dqComp.state := by
  decide

/-- C9 (amended): configuring debug logging with zero explicit categories
sets every category flag to the call's loggingOn argument — so it enables
all categories exactly when loggingOn is true, and disables them all when
loggingOn is false. -/
theorem claim9_amended_zero_categories (comp : ModelInstance) (l : Bool)
    (hstate : allowedIn comp.state MASK_fmi3SetDebugLogging) :
    fmi3SetDebugLogging comp l 0 []
      = (.ok, { comp with loggingOn := l, logCategories := ⟨l, l, l, l⟩ }, []) := by
  simp [fmi3SetDebugLogging, invalidState_of_allowed hstate]

/-- Witness for C9 (amended): zero categories with loggingOn = true enables
all four categories on the Dahlquist instance. -/
theorem claim9_witness :
    fmi3SetDebugLogging dqComp true 0 []
      = (.ok, { dqComp with
          loggingOn := true
          logCategories := ⟨true, true, true, true⟩ }, []) :=
  claim9_amended_zero_categories dqComp true (by decide)

/-- Counterexample to C9 as stated: with loggingOn = false, zero explicit
categories leaves every category disabled rather than enabling them all. -/
theorem claim9_counterexample :
    (fmi3SetDebugLogging dqComp false 0 []).1 = .ok ∧
    (fmi3SetDebugLogging dqComp false 0 []).2.1.logCategories
      ≠ (⟨true, true, true, true⟩ : LogCategories) := by
  decide

/-- C8 (amended): configuring debug logging with one unrecognized category
name returns fmi3OK and emits the not-supported warning for that name, but
it does not leave the category flags unchanged: the call first resets every
category flag to false and, the name being unrecognized, re-enables none,
so afterwards all four categories are disabled (and loggingOn is stored). -/
theorem claim8_amended_unknown_category (comp : ModelInstance) (l : Bool) (name : String)
    (hstate : allowedIn comp.state MASK_fmi3SetDebugLogging)
    (hname : name ∉ logCategoriesNames) :
    fmi3SetDebugLogging comp l 1 [name]
      = (.ok, { comp with
          loggingOn := l
          logCategories := ⟨false, false, false, false⟩ }, [name]) := by
  simp [fmi3SetDebugLogging, invalidState_of_allowed hstate, setDebugCatsLoop,
    findNameIdx_eq_none hname]

/-- Witness for C8 (amended): the unrecognized name "bogus" produces the
warning and leaves all categories disabled. -/
theorem claim8_witness :
    fmi3SetDebugLogging dqComp true 1 ["bogus"]
      = (.ok, { dqComp with
          loggingOn := true
          logCategories := ⟨false, false, false, false⟩ }, ["bogus"]) :=
  claim8_amended_unknown_category dqComp true "bogus" (by decide) (by decide)

/-- Counterexample to C8 as stated: before the call every category of the
instance is enabled; after configuring one unrecognized category name every
category is disabled — the flags did not stay unchanged. -/
theorem claim8_counterexample :
    dqComp.logCategories = (⟨true, true, true, true⟩ : LogCategories) ∧
    (fmi3SetDebugLogging dqComp true 1 ["bogus"]).2.1.logCategories
      = (⟨false, false, false, false⟩ : LogCategories) ∧
    (fmi3SetDebugLogging dqComp true 1 ["bogus"]).2.2 = ["bogus"] := by
  decide

/-- C1 (amended): for every status-returning protocol operation, invoking it
in a lifecycle state outside its legal state mask returns fmi3Error and
transitions the instance to the error state — one conjunct per operation of
the template, universally quantified over the remaining arguments.  The
second half of the original claim (that the error state is absorbing, every
non-teardown call failing from it) is false and is not part of this
statement: several legal-state masks contain modelError (all getters,
fmi3SetDebugLogging, fmi3Reset, the state-snapshot stubs,
fmi3GetDirectionalDerivative, fmi3GetRealOutputDerivatives), so those calls
pass the sequence check in the error state — see the counterexample. -/
theorem claim1_illegal_call_errors (m : Model) (comp : ModelInstance) :
    (∀ t, ¬ allowedIn comp.state MASK_fmi3SetupExperiment →
      fmi3SetupExperiment comp t = (.error, { comp with state := .modelError })) ∧
    (¬ allowedIn comp.state MASK_fmi3EnterInitializationMode →
      fmi3EnterInitializationMode comp = (.error, { comp with state := .modelError })) ∧
    (¬ allowedIn comp.state MASK_fmi3ExitInitializationMode →
      fmi3ExitInitializationMode m comp = (.error, { comp with state := .modelError })) ∧
    (¬ allowedIn comp.state MASK_fmi3Terminate →
      fmi3Terminate comp = (.error, { comp with state := .modelError })) ∧
    (¬ allowedIn comp.state MASK_fmi3Reset →
      fmi3Reset m comp = (.error, { comp with state := .modelError })) ∧
    (∀ l n cats, ¬ allowedIn comp.state MASK_fmi3SetDebugLogging →
      fmi3SetDebugLogging comp l n cats = (.error, { comp with state := .modelError }, [])) ∧
    (∀ vr? nvr b, ¬ allowedIn comp.state MASK_fmi3GetReal →
      fmi3GetReal m comp vr? nvr b = (.error, { comp with state := .modelError }, [])) ∧
    (∀ vr? nvr b, ¬ allowedIn comp.state MASK_fmi3GetInteger →
      fmi3GetInteger m comp vr? nvr b = (.error, { comp with state := .modelError }, [])) ∧
    (∀ vr? nvr b, ¬ allowedIn comp.state MASK_fmi3GetBoolean →
      fmi3GetBoolean m comp vr? nvr b = (.error, { comp with state := .modelError }, [])) ∧
    (∀ vr? nvr b, ¬ allowedIn comp.state MASK_fmi3GetString →
      fmi3GetString m comp vr? nvr b = (.error, { comp with state := .modelError }, [])) ∧
    (∀ vr? nvr v?, ¬ allowedIn comp.state MASK_fmi3SetReal →
      fmi3SetReal m comp vr? nvr v? = (.error, { comp with state := .modelError })) ∧
    (∀ vr? nvr v?, ¬ allowedIn comp.state MASK_fmi3SetInteger →
      fmi3SetInteger m comp vr? nvr v? = (.error, { comp with state := .modelError })) ∧
    (∀ vr? nvr v?, ¬ allowedIn comp.state MASK_fmi3SetBoolean →
      fmi3SetBoolean m comp vr? nvr v? = (.error, { comp with state := .modelError })) ∧
    (∀ vr? nvr v?, ¬ allowedIn comp.state MASK_fmi3SetString →
      fmi3SetString m comp vr? nvr v? = (.error, { comp with state := .modelError })) ∧
    (¬ allowedIn comp.state MASK_fmi3GetFMUstate →
      fmi3GetFMUstate comp = (.error, { comp with state := .modelError })) ∧
    (¬ allowedIn comp.state MASK_fmi3SetFMUstate →
      fmi3SetFMUstate comp = (.error, { comp with state := .modelError })) ∧
    (¬ allowedIn comp.state MASK_fmi3FreeFMUstate →
      fmi3FreeFMUstate comp = (.error, { comp with state := .modelError })) ∧
    (¬ allowedIn comp.state MASK_fmi3SerializedFMUstateSize →
      fmi3SerializedFMUstateSize comp = (.error, { comp with state := .modelError })) ∧
    (¬ allowedIn comp.state MASK_fmi3SerializeFMUstate →
      fmi3SerializeFMUstate comp = (.error, { comp with state := .modelError })) ∧
    (¬ allowedIn comp.state MASK_fmi3DeSerializeFMUstate →
      fmi3DeSerializeFMUstate comp = (.error, { comp with state := .modelError })) ∧
    (¬ allowedIn comp.state MASK_fmi3GetDirectionalDerivative →
      fmi3GetDirectionalDerivative comp = (.error, { comp with state := .modelError })) ∧
    (¬ allowedIn comp.state MASK_fmi3SetRealInputDerivatives →
      fmi3SetRealInputDerivatives comp = (.error, { comp with state := .modelError })) ∧
    (∀ nvr, ¬ allowedIn comp.state MASK_fmi3GetRealOutputDerivatives →
      fmi3GetRealOutputDerivatives comp nvr
        = (.error, { comp with state := .modelError }, [])) ∧
    (¬ allowedIn comp.state MASK_fmi3CancelStep →
      fmi3CancelStep comp = (.error, { comp with state := .modelError })) ∧
    (∀ t s, ¬ allowedIn comp.state MASK_fmi3DoStep →
      fmi3DoStep m comp t s = (.error, { comp with state := .modelError })) ∧
    (∀ s, ¬ allowedIn comp.state MASK_fmi3GetStatus →
      fmi3GetStatus comp s = (.error, { comp with state := .modelError })) ∧
    (∀ s, ¬ allowedIn comp.state MASK_fmi3GetRealStatus →
      fmi3GetRealStatus comp s = (.error, { comp with state := .modelError }, none)) ∧
    (∀ s, ¬ allowedIn comp.state MASK_fmi3GetIntegerStatus →
      fmi3GetIntegerStatus comp s = (.error, { comp with state := .modelError })) ∧
    (∀ s, ¬ allowedIn comp.state MASK_fmi3GetBooleanStatus →
      fmi3GetBooleanStatus comp s = (.error, { comp with state := .modelError }, none)) ∧
    (∀ s, ¬ allowedIn comp.state MASK_fmi3GetStringStatus →
      fmi3GetStringStatus comp s = (.error, { comp with state := .modelError })) ∧
    (¬ allowedIn comp.state MASK_fmi3EnterEventMode →
      fmi3EnterEventMode comp = (.error, { comp with state := .modelError })) ∧
    (¬ allowedIn comp.state MASK_fmi3NewDiscreteStates →
      fmi3NewDiscreteStates m comp = (.error, { comp with state := .modelError }, none)) ∧
    (¬ allowedIn comp.state MASK_fmi3EnterContinuousTimeMode →
      fmi3EnterContinuousTimeMode comp = (.error, { comp with state := .modelError })) ∧
    (∀ b1 b2, ¬ allowedIn comp.state MASK_fmi3CompletedIntegratorStep →
      fmi3CompletedIntegratorStep comp b1 b2
        = (.error, { comp with state := .modelError }, none)) ∧
    (∀ t, ¬ allowedIn comp.state MASK_fmi3SetTime →
      fmi3SetTime comp t = (.error, { comp with state := .modelError })) ∧
    (∀ x? nx, ¬ allowedIn comp.state MASK_fmi3SetContinuousStates →
      fmi3SetContinuousStates m comp x? nx = (.error, { comp with state := .modelError })) ∧
    (∀ b nx, ¬ allowedIn comp.state MASK_fmi3GetDerivatives →
      fmi3GetDerivatives m comp b nx = (.error, { comp with state := .modelError }, [])) ∧
    (∀ ni, ¬ allowedIn comp.state MASK_fmi3GetEventIndicators →
      fmi3GetEventIndicators m comp ni = (.error, { comp with state := .modelError }, [])) ∧
    (∀ b nx, ¬ allowedIn comp.state MASK_fmi3GetContinuousStates →
      fmi3GetContinuousStates m comp b nx
        = (.error, { comp with state := .modelError }, [])) ∧
    (∀ b nx, ¬ allowedIn comp.state MASK_fmi3GetNominalsOfContinuousStates →
      fmi3GetNominalsOfContinuousStates m comp b nx
        = (.error, { comp with state := .modelError }, [])) :=
  ⟨fun _ h => by simp [fmi3SetupExperiment, invalidState_of_not_allowed h],
    fun h => by simp [fmi3EnterInitializationMode, invalidState_of_not_allowed h],
    fun h => by simp [fmi3ExitInitializationMode, invalidState_of_not_allowed h],
    fun h => by simp [fmi3Terminate, invalidState_of_not_allowed h],
    fun h => by simp [fmi3Reset, invalidState_of_not_allowed h],
    fun _ _ _ h => by simp [fmi3SetDebugLogging, invalidState_of_not_allowed h],
    fun _ _ _ h => by simp [fmi3GetReal, invalidState_of_not_allowed h],
    fun _ _ _ h => by simp [fmi3GetInteger, invalidState_of_not_allowed h],
    fun _ _ _ h => by simp [fmi3GetBoolean, invalidState_of_not_allowed h],
    fun _ _ _ h => by simp [fmi3GetString, invalidState_of_not_allowed h],
    fun _ _ _ h => by simp [fmi3SetReal, invalidState_of_not_allowed h],
    fun _ _ _ h => by simp [fmi3SetInteger, invalidState_of_not_allowed h],
    fun _ _ _ h => by simp [fmi3SetBoolean, invalidState_of_not_allowed h],
    fun _ _ _ h => by simp [fmi3SetString, invalidState_of_not_allowed h],
    fun h => by simp [fmi3GetFMUstate, unsupportedFunction, invalidState_of_not_allowed h],
    fun h => by simp [fmi3SetFMUstate, unsupportedFunction, invalidState_of_not_allowed h],
    fun h => by simp [fmi3FreeFMUstate, unsupportedFunction, invalidState_of_not_allowed h],
    fun h => by
      simp [fmi3SerializedFMUstateSize, unsupportedFunction, invalidState_of_not_allowed h],
    fun h => by
      simp [fmi3SerializeFMUstate, unsupportedFunction, invalidState_of_not_allowed h],
    fun h => by
      simp [fmi3DeSerializeFMUstate, unsupportedFunction, invalidState_of_not_allowed h],
    fun h => by
      simp [fmi3GetDirectionalDerivative, unsupportedFunction, invalidState_of_not_allowed h],
    fun h => by simp [fmi3SetRealInputDerivatives, invalidState_of_not_allowed h],
    fun _ h => by simp [fmi3GetRealOutputDerivatives, invalidState_of_not_allowed h],
    fun h => by simp [fmi3CancelStep, invalidState_of_not_allowed h],
    fun _ _ h => by simp [fmi3DoStep, invalidState_of_not_allowed h],
    fun _ h => by simp [fmi3GetStatus, getStatus, invalidState_of_not_allowed h],
    fun s h => by
      cases s <;>
        simp [fmi3GetRealStatus, getStatus, invalidState_of_not_allowed h,
          @invalidState_of_not_allowed comp MASK_fmi3GetStatus h],
    fun _ h => by
      simp [fmi3GetIntegerStatus, getStatus,
        @invalidState_of_not_allowed comp MASK_fmi3GetStatus h],
    fun s h => by
      cases s <;>
        simp [fmi3GetBooleanStatus, getStatus, invalidState_of_not_allowed h,
          @invalidState_of_not_allowed comp MASK_fmi3GetStatus h],
    fun _ h => by
      simp [fmi3GetStringStatus, getStatus,
        @invalidState_of_not_allowed comp MASK_fmi3GetStatus h],
    fun h => by simp [fmi3EnterEventMode, invalidState_of_not_allowed h],
    fun h => by simp [fmi3NewDiscreteStates, invalidState_of_not_allowed h],
    fun h => by simp [fmi3EnterContinuousTimeMode, invalidState_of_not_allowed h],
    fun _ _ h => by simp [fmi3CompletedIntegratorStep, invalidState_of_not_allowed h],
    fun _ h => by simp [fmi3SetTime, invalidState_of_not_allowed h],
    fun _ _ h => by simp [fmi3SetContinuousStates, invalidState_of_not_allowed h],
    fun _ _ h => by simp [fmi3GetDerivatives, invalidState_of_not_allowed h],
    fun _ h => by simp [fmi3GetEventIndicators, invalidState_of_not_allowed h],
    fun _ _ h => by simp [fmi3GetContinuousStates, invalidState_of_not_allowed h],
    fun _ _ h => by simp [fmi3GetNominalsOfContinuousStates, invalidState_of_not_allowed h]⟩

/-- Witness for C1 (amended): fmi3Terminate invoked in the instantiated
state (not in its legal set) returns fmi3Error and moves the instance to
modelError. -/
theorem claim1_witness :
    fmi3Terminate (mkInstance [] [] .modelInstantiated)
      = (.error, { mkInstance [] [] .modelInstantiated with state := .modelError }) :=
  (claim1_illegal_call_errors dqModel
    (mkInstance [] [] .modelInstantiated)).2.2.2.1 (by decide)

/-- Counterexample to C1 as stated: the error state is not absorbing.  From
state modelError the non-teardown calls fmi3SetDebugLogging and fmi3GetReal
both pass the sequence check (their masks contain modelError) and return
fmi3OK, not an error. -/
theorem claim1_counterexample :
    (fmi3SetDebugLogging (mkInstance [[.real 1], [.real 0], [.real 1]] [] .modelError)
      true 0 []).1 = .ok ∧
    (fmi3GetReal dqModel (mkInstance [[.real 1], [.real 0], [.real 1]] [] .modelError)
      (some [0]) 1 false).1 = .ok := by
  decide

/-- C3 (amended): setting a real VR and immediately getting the same VR
returns exactly the set value, provided additionally that the model's
getReal hook answers that VR from the VR's own slot (which the example
models do not always do — BouncingBall aliases der_h_ to the velocity slot,
see the counterexample) and the compute hook leaves that VR's slot
untouched.  Hypotheses: a state legal for both calls, the VR in range and of
real kind, a singleton batch (whose element count `s_variableSizes[0]` is 1),
a well-formed store at that VR, the identity read hook, and the
slot-preserving compute hook. -/
theorem claim3_amended_set_get_roundtrip (m : Model) (comp : ModelInstance) (vr : Nat) (x : ℚ)
    (hset : allowedIn comp.state MASK_fmi3SetReal)
    (hget : allowedIn comp.state MASK_fmi3GetReal)
    (hvr : vrValid m vr .r)
    (hsz : m.variableSizes.getD 0 0 = 1)
    (hlen : vr < comp.vars.length)
    (hslot : 0 < (slotOf comp vr).length)
    (hHook : ∀ c, m.getReal c vr = (c, realSlotList c vr))
    (hCalc : ∀ c, slotOf (m.calculateValues c) vr = slotOf c vr) :
    (fmi3SetReal m comp (some [vr]) 1 (some [x])).1 = .ok ∧
    (fmi3GetReal m (fmi3SetReal m comp (some [vr]) 1 (some [x])).2 (some [vr]) 1 false).1
      = .ok ∧
    (fmi3GetReal m (fmi3SetReal m comp (some [vr]) 1 (some [x])).2 (some [vr]) 1 false).2.2
      = [x] := by
  have hsz' : m.variableSizes[0]?.getD 0 = 1 := by
    simpa [List.getD] using hsz
  have hcondSet : (comp.state.mask &&& MASK_fmi3SetReal == 0) = false := by
    simpa [allowedIn] using hset
  have hcondGet : (comp.state.mask &&& MASK_fmi3GetReal == 0) = false := by
    simpa [allowedIn] using hget
  have hr1 : ¬ (m.nVariables ≤ vr) := Nat.not_le.mpr hvr.1
  have hr2 : m.variableTypes[vr]?.getD VarKind.r = VarKind.r := by
    simpa [List.getD] using hvr.2
  have hCalc' : ∀ c : ModelInstance,
      (m.calculateValues c).vars[vr]?.getD [] = c.vars[vr]?.getD [] := fun c => by
    simpa [slotOf, List.getD] using hCalc c
  have hset1 : ∀ a : List Value, (comp.vars.set vr a)[vr]?.getD [] = a := fun a => by
    rw [List.getElem?_set_eq_of_lt _ hlen]
    rfl
  have hslotLen : 0 < (comp.vars[vr]?.getD []).length := by
    simpa [slotOf, List.getD] using hslot
  have hset2 : ∀ v : Value,
      ((comp.vars[vr]?.getD []).set 0 v)[(0 : Nat)]?.getD (Value.real 0) = v := fun v => by
    rw [List.getElem?_set_eq_of_lt _ hslotLen]
    rfl
  have hset3 : ∀ q : ℚ,
      (((comp.vars[vr]?.getD []).map Value.asReal).set 0 q)[(0 : Nat)]?.getD 0 = q :=
    fun q => by
    rw [List.getElem?_set_eq_of_lt _ (by simpa using hslotLen)]
    rfl
  refine ⟨?_, ?_, ?_⟩ <;>
    simp [fmi3SetReal, fmi3GetReal, invalidState, hcondSet, hcondGet, nullPointerChk,
      setRealGo, getRealLoop, setRealInner, getRealInner, vrOutOfRange, hr1, hr2,
      hsz', hHook, realSlotList, realAt, slotOf, writeRealAt, writeAt,
      List.getD, hCalc', hset1, hset2, hset3, Value.asReal]

/-- Witness for C3 (amended): the Dahlquist model at vr 0 (x_), whose read
hook is the identity slot read and whose compute hook is empty: setting 7
and getting it back returns 7. -/
theorem claim3_witness :
    (fmi3SetReal dqModel dqComp (some [0]) 1 (some [7])).1 = .ok ∧
    (fmi3GetReal dqModel (fmi3SetReal dqModel dqComp (some [0]) 1 (some [7])).2
      (some [0]) 1 false).1 = .ok ∧
    (fmi3GetReal dqModel (fmi3SetReal dqModel dqComp (some [0]) 1 (some [7])).2
      (some [0]) 1 false).2.2 = [7] :=
  claim3_amended_set_get_roundtrip dqModel dqComp 0 7 (by decide) (by decide) (by decide)
    rfl (by decide) (by decide) (fun _ => rfl) (fun _ => rfl)

/-- Counterexample to C3 as stated: on the BouncingBall model, vr 1 (der_h_)
is in range, of real kind, and is not recomputed by the compute hook (which
is the identity outside initialization mode, third conjunct), yet setting it
to 5 in the legal event-mode state and immediately getting it back returns
the velocity slot's value 0, not 5 — the model's getReal hook aliases vr 1
to vr 2. -/
theorem claim3_counterexample :
    (fmi3SetReal (bouncingBallModel 0) bbComp (some [1]) 1 (some [5])).1 = .ok ∧
    (bouncingBallModel 0).calculateValues
        (fmi3SetReal (bouncingBallModel 0) bbComp (some [1]) 1 (some [5])).2
      = (fmi3SetReal (bouncingBallModel 0) bbComp (some [1]) 1 (some [5])).2 ∧
    (fmi3GetReal (bouncingBallModel 0)
      (fmi3SetReal (bouncingBallModel 0) bbComp (some [1]) 1 (some [5])).2
      (some [1]) 1 false).1 = .ok ∧
    (fmi3GetReal (bouncingBallModel 0)
      (fmi3SetReal (bouncingBallModel 0) bbComp (some [1]) 1 (some [5])).2
      (some [1]) 1 false).2.2 ≠ [5] := by
  decide

/-- The fmi3SetReal batch loop, aborted on the first invalid entry: the
entries before position p stay applied (`writeEntrySeq`), the instance moves
to modelError, and the status is fmi3Error. -/
theorem setRealGo_abort (m : Model) (vrL : List Nat) (valueL : List ℚ) :
    ∀ (p i k fuel : Nat) (comp : ModelInstance), p < fuel →
      (∀ q, q < p → vrValid m (vrL.getD (i + q) 0) .r) →
      ¬ vrValid m (vrL.getD (i + p) 0) .r →
      setRealGo m vrL valueL i k fuel comp
        = (.error, { writeEntrySeq m vrL valueL i k p comp with state := .modelError })
  | 0, i, k, fuel, comp, hf, _hprev, hbad => by
    obtain ⟨n, rfl⟩ : ∃ n, fuel = n + 1 := ⟨fuel - 1, by omega⟩
    simp only [setRealGo, writeEntrySeq]
    rw [vrOutOfRange_of_invalid (by simpa using hbad)]
    simp
  | p + 1, i, k, fuel, comp, hf, hprev, hbad => by
    obtain ⟨n, rfl⟩ : ∃ n, fuel = n + 1 := ⟨fuel - 1, by omega⟩
    have h0 : vrValid m (vrL.getD i 0) .r := by
      simpa using hprev 0 (Nat.succ_pos p)
    simp only [setRealGo, writeEntrySeq]
    rw [vrOutOfRange_of_valid h0]
    simp only [Bool.false_eq_true, if_false]
    have hrec := setRealGo_abort m vrL valueL p (i + 1) (k + m.variableSizes.getD i 0) n
      (setRealInner valueL (vrL.getD i 0) 0 k (m.variableSizes.getD i 0) comp)
      (by omega)
      (fun q hq => by
        have hh := hprev (q + 1) (by omega)
        have he : i + (q + 1) = i + 1 + q := by omega
        rwa [he] at hh)
      (by
        have he : i + (p + 1) = i + 1 + p := by omega
        rwa [he] at hbad)
    exact hrec

/-- C4: the batched fmi3SetReal validates VR range and kind per entry; when
the entries before batch position p are valid and entry p is the first
invalid one, the call returns fmi3Error, the instance moves to modelError,
and the store holds exactly the writes of the earlier entries — no rollback
(`writeEntrySeq` applies entries 0..p-1 at their flat-buffer offsets). -/
theorem claim4_batch_abort_no_rollback (m : Model) (comp : ModelInstance)
    (vrL : List Nat) (valueL : List ℚ) (nvr p : Nat)
    (hstate : allowedIn comp.state MASK_fmi3SetReal)
    (hp : p < nvr)
    (hprev : ∀ q, q < p → vrValid m (vrL.getD q 0) .r)
    (hbad : ¬ vrValid m (vrL.getD p 0) .r) :
    fmi3SetReal m comp (some vrL) nvr (some valueL)
      = (.error, { writeEntrySeq m vrL valueL 0 0 p comp with state := .modelError }) := by
  have habort := setRealGo_abort m vrL valueL p 0 0 nvr comp hp
    (fun q hq => by simpa using hprev q hq) (by simpa using hbad)
  simp [fmi3SetReal, invalidState_of_allowed hstate, nullPointerChk, habort]

/-- Witness for C4: Dahlquist, batch [vr 0 (valid), vr 9 (out of range)]:
the call errors, vr 0's write (value 5) stays applied. -/
theorem claim4_witness :
    fmi3SetReal dqModel dqComp (some [0, 9]) 2 (some [5, 6])
      = (.error, { writeEntrySeq dqModel [0, 9] [5, 6] 0 0 1 dqComp with
          state := .modelError }) :=
  claim4_batch_abort_no_rollback dqModel dqComp [0, 9] [5, 6] 2 1 (by decide) (by decide)
    (by decide) (by decide)

theorem setRealInner_isDirtyValues (valueL : List ℚ) (vr : Nat) :
    ∀ (j k fuel : Nat) (comp : ModelInstance),
      (setRealInner valueL vr j k fuel comp).isDirtyValues = comp.isDirtyValues
  | _j, _k, 0, _comp => rfl
  | j, k, fuel + 1, comp => by
    simp only [setRealInner]
    rw [setRealInner_isDirtyValues valueL vr (j + 1) (k + 1) fuel _]
    rfl

theorem setRealGo_isDirtyValues (m : Model) (vrL : List Nat) (valueL : List ℚ) :
    ∀ (i k fuel : Nat) (comp : ModelInstance),
      (setRealGo m vrL valueL i k fuel comp).2.isDirtyValues = comp.isDirtyValues
  | _i, _k, 0, _comp => rfl
  | i, k, fuel + 1, comp => by
    simp only [setRealGo]
    by_cases hb : vrValid m (vrL.getD i 0) .r
    · rw [vrOutOfRange_of_valid hb]
      simp only [Bool.false_eq_true, if_false]
      rw [setRealGo_isDirtyValues m vrL valueL (i + 1) (k + m.variableSizes.getD i 0) fuel _]
      exact setRealInner_isDirtyValues valueL _ 0 k _ comp
    · rw [vrOutOfRange_of_invalid hb]
      simp

/-- C5 (amended): fmi3SetReal marks the instance dirty exactly on a
successful return with a non-empty batch; every failing call — including a
batch aborted after earlier entries were already written, see the
counterexample — leaves the dirty flag unchanged. -/
theorem claim5_amended_dirty_marking (m : Model) (comp : ModelInstance)
    (vrL : List Nat) (valueL : List ℚ) (nvr : Nat) :
    ((fmi3SetReal m comp (some vrL) nvr (some valueL)).1 = .ok → 0 < nvr →
      (fmi3SetReal m comp (some vrL) nvr (some valueL)).2.isDirtyValues = true) ∧
    ((fmi3SetReal m comp (some vrL) nvr (some valueL)).1 ≠ .ok →
      (fmi3SetReal m comp (some vrL) nvr (some valueL)).2.isDirtyValues
        = comp.isDirtyValues) := by
  by_cases hstate : allowedIn comp.state MASK_fmi3SetReal
  · rcases hgo : setRealGo m vrL valueL 0 0 nvr comp with ⟨st, c⟩
    have hdirty : c.isDirtyValues = comp.isDirtyValues := by
      have hg := setRealGo_isDirtyValues m vrL valueL 0 0 nvr comp
      rw [hgo] at hg
      exact hg
    cases st
    · constructor
      · intro _ hn
        simp [fmi3SetReal, invalidState_of_allowed hstate, nullPointerChk, hgo, hn]
      · intro hne
        simp [fmi3SetReal, invalidState_of_allowed hstate, nullPointerChk, hgo] at hne
    all_goals
      simp [fmi3SetReal, invalidState_of_allowed hstate, nullPointerChk, hgo, hdirty]
  · simp [fmi3SetReal, invalidState_of_not_allowed hstate]

/-- Witness for C5 (amended): a successful single-entry fmi3SetReal marks
the Dahlquist instance dirty. -/
theorem claim5_witness :
    (fmi3SetReal dqModel dqComp (some [0]) 1 (some [5])).2.isDirtyValues = true :=
  (claim5_amended_dirty_marking dqModel dqComp [0] [5] 1).1 (by decide) (by decide)

/-- Counterexample to C5 as stated: the batch [vr 0, vr 9] on Dahlquist
writes vr 0 (a successful write to the store: slot 0 becomes 5, different
from before) and then aborts on the out-of-range vr 9 — yet the dirty flag
stays false, because the code sets it only after the whole loop succeeds. -/
theorem claim5_counterexample :
    dqComp.isDirtyValues = false ∧
    (fmi3SetReal dqModel dqComp (some [0, 9]) 2 (some [5, 6])).1 = .error ∧
    realAt (fmi3SetReal dqModel dqComp (some [0, 9]) 2 (some [5, 6])).2 0 0 = 5 ∧
    realAt dqComp 0 0 ≠ 5 ∧
    (fmi3SetReal dqModel dqComp (some [0, 9]) 2 (some [5, 6])).2.isDirtyValues = false := by
  decide

/-- C7 (code bug): the typed accessors do not all check their own kind.  On
the Values model ("rriibbss"): vr 4 is declared boolean, yet fmi3SetBoolean
on it returns fmi3Error and forces modelError, because the source passes 'i'
to the kind check (fmu3Template.c line 568); vr 6 is declared text, yet
fmi3GetString on it errors, because the source passes 'b' (line 480);
conversely fmi3SetBoolean on the integer vr 2 passes the kind check and
returns fmi3OK.  The remaining six accessors check their own kind, per the
claim. -/
theorem claim7_kind_check_slips :
    valuesModel.variableTypes.getD 4 .r = .b ∧
    (fmi3SetBoolean valuesModel valuesComp (some [4]) 1 (some [true])).1 = .error ∧
    (fmi3SetBoolean valuesModel valuesComp (some [4]) 1 (some [true])).2.state
      = .modelError ∧
    valuesModel.variableTypes.getD 6 .r = .s ∧
    (fmi3GetString valuesModel valuesComp (some [6]) 1 false).1 = .error ∧
    (fmi3GetString valuesModel valuesComp (some [6]) 1 false).2.1.state = .modelError ∧
    valuesModel.variableTypes.getD 2 .r = .i ∧
    (fmi3SetBoolean valuesModel valuesComp (some [2]) 1 (some [true])).1 = .ok := by
  decide

theorem realAt_congr {c c' : ModelInstance} {vr : Nat}
    (h : slotOf c' vr = slotOf c vr) (j : Nat) : realAt c' vr j = realAt c vr j := by
  simp only [realAt, h]

/-- The sequential forward-Euler fold of fmi3DoStep equals the simultaneous
update that reads every state and derivative from the reference instance c,
provided the accumulator agrees with c on all state and derivative slots,
the state VRs are distinct, and no derivative VR is itself a state VR. -/
theorem eulerStates_foldl_spec (m : Model) (h : ℚ)
    (hHook : ∀ c vr, m.getReal c vr = (c, realSlotList c vr)) :
    ∀ (L : List Nat) (c c' : ModelInstance),
      (∀ vr ∈ L, slotOf c' vr = slotOf c vr ∧ slotOf c' (vr + 1) = slotOf c (vr + 1)) →
      L.Nodup →
      (∀ v ∈ L, ∀ w ∈ L, v + 1 ≠ w) →
      L.foldl (fun c2 vr =>
          let r := m.getReal c2 (vr + 1)
          writeRealAt r.1 vr 0 (realAt r.1 vr 0 + h * r.2.getD 0 0)) c'
        = L.foldl (fun c2 vr =>
            writeRealAt c2 vr 0 (realAt c vr 0 + h * realAt c (vr + 1) 0)) c'
  | [], _c, _c', _, _, _ => rfl
  | vr :: rest, c, c', hagree, hnodup, hdisj => by
    simp only [List.foldl_cons]
    rw [hHook c' (vr + 1)]
    dsimp only
    have h1 : realAt c' vr 0 = realAt c vr 0 :=
      realAt_congr (hagree vr (List.mem_cons_self vr rest)).1 0
    have h2 : (realSlotList c' (vr + 1)).getD 0 0 = realAt c (vr + 1) 0 := by
      rw [realSlotList_getD]
      exact realAt_congr (hagree vr (List.mem_cons_self vr rest)).2 0
    rw [h1, h2]
    apply eulerStates_foldl_spec m h hHook rest c _
    · intro w hw
      have hwvr : w ≠ vr := by
        intro hEq
        subst hEq
        exact (List.nodup_cons.mp hnodup).1 hw
      have hw1vr : w + 1 ≠ vr :=
        hdisj w (List.mem_cons_of_mem _ hw) vr (List.mem_cons_self vr rest)
      constructor
      · rw [writeRealAt, slotOf_writeAt_ne _ _ _ hwvr]
        exact (hagree w (List.mem_cons_of_mem _ hw)).1
      · rw [writeRealAt, slotOf_writeAt_ne _ _ _ hw1vr]
        exact (hagree w (List.mem_cons_of_mem _ hw)).2
    · exact (List.nodup_cons.mp hnodup).2
    · intro v hv w hw
      exact hdisj v (List.mem_cons_of_mem _ hv) w (List.mem_cons_of_mem _ hw)

/-- A fold of state-slot writes commutes with setting the time field. -/
theorem foldl_writeReal_time :
    ∀ (L : List Nat) (f : Nat → ℚ) (c : ModelInstance) (t : ℚ),
      L.foldl (fun c2 vr => writeRealAt c2 vr 0 (f vr)) { c with time := t }
        = { L.foldl (fun c2 vr => writeRealAt c2 vr 0 (f vr)) c with time := t }
  | [], _f, _c, _t => rfl
  | vr :: rest, f, c, t => by
    simp only [List.foldl_cons]
    have hw : writeRealAt { c with time := t } vr 0 (f vr)
        = { writeRealAt c vr 0 (f vr) with time := t } := rfl
    rw [hw]
    exact foldl_writeReal_time rest f (writeRealAt c vr 0 (f vr)) t

/-- A fold of state-slot writes leaves the event-info record unchanged. -/
theorem foldl_writeReal_eventInfo :
    ∀ (L : List Nat) (f : Nat → ℚ) (c : ModelInstance),
      (L.foldl (fun c2 vr => writeRealAt c2 vr 0 (f vr)) c).eventInfo = c.eventInfo
  | [], _f, _c => rfl
  | vr :: rest, f, c => by
    simp only [List.foldl_cons]
    exact (foldl_writeReal_eventInfo rest f (writeRealAt c vr 0 (f vr))).trans rfl

theorem eulerSpecSub_eventInfo (m : Model) (h : ℚ) (c : ModelInstance) :
    (eulerSpecSub m h c).eventInfo = c.eventInfo :=
  foldl_writeReal_eventInfo m.vrStates (fun vr => realAt c vr 0 + h * realAt c (vr + 1) 0) c

theorem eulerSpecSub_time (m : Model) (h : ℚ) (c : ModelInstance) :
    (eulerSpecSub m h c).time = c.time + h := rfl

/-- One fmi3DoStep sub-interval, on a model with no event indicators, an
identity read hook, distinct state VRs whose derivative VRs are not states,
and with no time event scheduled and no pending termination request, is
exactly the specification's simultaneous Euler sub-step. -/
theorem doStepSub_no_events (m : Model) (h : ℚ)
    (hHook : ∀ c vr, m.getReal c vr = (c, realSlotList c vr))
    (hInd : m.numberOfEventIndicators = 0)
    (hNodup : m.vrStates.Nodup)
    (hDisj : ∀ v ∈ m.vrStates, ∀ w ∈ m.vrStates, v + 1 ≠ w)
    (c : ModelInstance) (prev : List ℚ)
    (hTimeEv : c.eventInfo.nextEventTimeDefined = false)
    (hTerm : c.eventInfo.terminateSimulation = false) :
    doStepSub m h c prev = Sum.inr (eulerSpecSub m h c, []) := by
  have heuler : eulerStates m h { c with time := c.time + h } = eulerSpecSub m h c := by
    simp only [eulerStates]
    rw [eulerStates_foldl_spec m h hHook m.vrStates c { c with time := c.time + h }
      (fun vr _ => ⟨rfl, rfl⟩) hNodup hDisj]
    exact foldl_writeReal_time m.vrStates _ c (c.time + h)
  have hscan : scanIndicators m (eulerSpecSub m h c) prev = (false, []) := by
    simp [scanIndicators, hInd]
  have hev : (eulerSpecSub m h c).eventInfo = c.eventInfo := eulerSpecSub_eventInfo m h c
  simp only [doStepSub, heuler, hscan, hev, hTimeEv, hTerm]
  simp [hev, hTimeEv, hTerm]

/-- The 10-sub-interval loop of fmi3DoStep, under the same hypotheses, is
the n-fold iterate of the specification sub-step. -/
theorem doStepLoop_no_events (m : Model) (h : ℚ)
    (hHook : ∀ c vr, m.getReal c vr = (c, realSlotList c vr))
    (hInd : m.numberOfEventIndicators = 0)
    (hNodup : m.vrStates.Nodup)
    (hDisj : ∀ v ∈ m.vrStates, ∀ w ∈ m.vrStates, v + 1 ≠ w) :
    ∀ (n : Nat) (c : ModelInstance) (prev : List ℚ),
      c.eventInfo.nextEventTimeDefined = false →
      c.eventInfo.terminateSimulation = false →
      doStepLoop m h n c prev = (.ok, (eulerSpecSub m h)^[n] c)
  | 0, c, _prev, _, _ => by
    simp [doStepLoop]
  | n + 1, c, prev, h1, h2 => by
    rw [doStepLoop, doStepSub_no_events m h hHook hInd hNodup hDisj c prev h1 h2]
    have hev := eulerSpecSub_eventInfo m h c
    dsimp only
    rw [doStepLoop_no_events m h hHook hInd hNodup hDisj n (eulerSpecSub m h c) []
      (by rw [hev]; exact h1) (by rw [hev]; exact h2)]
    rw [Function.iterate_succ_apply]

theorem eulerSpecSub_iterate_time (m : Model) (h : ℚ) :
    ∀ (n : Nat) (c : ModelInstance),
      ((eulerSpecSub m h)^[n] c).time = c.time + n * h
  | 0, c => by simp
  | n + 1, c => by
    rw [Function.iterate_succ_apply, eulerSpecSub_iterate_time m h n _, eulerSpecSub_time]
    push_cast
    ring

/-- C6: a successful fmi3DoStep call partitions the communication interval
into exactly 10 equal sub-intervals (the loop is the 10-fold iterate of the
width-s/10 sub-step, and the final time is t + s), in each sub-interval
advancing every continuous state by subStepSize × the derivative stored at
VR + 1 (forward Euler, the content of `eulerSpecSub`); and a sub-interval
flags a state event exactly when some event indicator's current × previous
product is negative (second conjunct, about the scan that fmi3DoStep runs
each sub-interval).  Hypotheses of the first conjunct: a legal state,
positive step size, the spec's configuration invariant (the model's read
hook answers each VR from its own slot, the state VRs are distinct and no
derivative VR is a state VR), no event indicators configured, and no time
event or termination pending. -/
theorem claim6_dostep_euler_substeps :
    (∀ (m : Model) (comp : ModelInstance) (t s : ℚ),
      allowedIn comp.state MASK_fmi3DoStep →
      0 < s →
      (∀ c vr, m.getReal c vr = (c, realSlotList c vr)) →
      m.numberOfEventIndicators = 0 →
      m.vrStates.Nodup →
      (∀ v ∈ m.vrStates, ∀ w ∈ m.vrStates, v + 1 ≠ w) →
      comp.eventInfo.nextEventTimeDefined = false →
      comp.eventInfo.terminateSimulation = false →
      fmi3DoStep m comp t s
          = (.ok, (eulerSpecSub m (s / 10))^[10] { comp with time := t }) ∧
        ((eulerSpecSub m (s / 10))^[10] { comp with time := t }).time = t + s) ∧
    (∀ (m : Model) (c : ModelInstance) (prev : List ℚ),
      prev.length = m.numberOfEventIndicators →
      ((scanIndicators m c prev).1 = true ↔
        ∃ i, i < m.numberOfEventIndicators ∧
          m.getEventIndicator c i * prev.getD i 0 < 0)) := by
  constructor
  · intro m comp t s hMask hs hHook hInd hNodup hDisj hTime hTerm
    constructor
    · simp only [fmi3DoStep, invalidState_of_allowed hMask, Bool.false_eq_true, if_false]
      rw [if_neg (not_le.mpr hs), hInd]
      simp only [List.range_zero, List.map_nil]
      exact doStepLoop_no_events m (s / 10) hHook hInd hNodup hDisj 10
        { comp with time := t } [] hTime hTerm
    · rw [eulerSpecSub_iterate_time]
      show t + (10 : Nat) * (s / 10) = t + s
      push_cast
      ring
  · intro m c prev hlen
    simp only [scanIndicators]
    rw [List.any_eq_true]
    have hlc : ((List.range m.numberOfEventIndicators).map
        fun j => m.getEventIndicator c j).length = m.numberOfEventIndicators := by
      simp
    have hlz : (((List.range m.numberOfEventIndicators).map
        fun j => m.getEventIndicator c j).zip prev).length = m.numberOfEventIndicators := by
      simp [hlen]
    constructor
    · rintro ⟨p, hp, hpred⟩
      rw [List.mem_iff_getElem] at hp
      obtain ⟨i, hi, hpi⟩ := hp
      have hi1 : i < m.numberOfEventIndicators := by
        rw [hlz] at hi
        exact hi
      refine ⟨i, hi1, ?_⟩
      have hip : i < prev.length := by omega
      rw [List.getElem_zip] at hpi
      rw [decide_eq_true_eq] at hpred
      rw [← hpi] at hpred
      rw [List.getD_eq_getElem _ _ hip]
      simpa using hpred
    · rintro ⟨i, hi1, hlt⟩
      have hi : i < (((List.range m.numberOfEventIndicators).map
          fun j => m.getEventIndicator c j).zip prev).length := by
        rw [hlz]
        exact hi1
      have hip : i < prev.length := by omega
      rw [List.getD_eq_getElem _ _ hip] at hlt
      refine ⟨(((List.range m.numberOfEventIndicators).map
          fun j => m.getEventIndicator c j).zip prev).get ⟨i, hi⟩, List.get_mem _ _ _, ?_⟩
      rw [decide_eq_true_eq, List.get_eq_getElem, List.getElem_zip]
      simpa using hlt

/-- Witness for C6: a minimal one-state model (state x at vr 0, derivative
at vr 1, identity read hook, no indicators) stepped over [0, 1] is the
10-fold iterate of the width-1/10 Euler sub-step ending at time 1; and the
state-event flag condition instantiated on the BouncingBall indicator. -/
theorem claim6_witness :
    (fmi3DoStep euler2Model euler2Comp 0 1
        = (.ok,
          (eulerSpecSub euler2Model ((1 : ℚ) / 10))^[10] { euler2Comp with time := 0 }) ∧
      ((eulerSpecSub euler2Model ((1 : ℚ) / 10))^[10] { euler2Comp with time := 0 }).time
        = 0 + 1) ∧
    ((scanIndicators (bouncingBallModel 0) bbComp [1]).1 = true ↔
      ∃ i, i < (bouncingBallModel 0).numberOfEventIndicators ∧
        (bouncingBallModel 0).getEventIndicator bbComp i * [(1 : ℚ)].getD i 0 < 0) :=
  ⟨claim6_dostep_euler_substeps.1 euler2Model euler2Comp 0 1 (by decide) zero_lt_one
      (fun _ _ => rfl) rfl (by decide) (by decide) rfl rfl,
    claim6_dostep_euler_substeps.2 (bouncingBallModel 0) bbComp [1] rfl⟩

end Fmu3
